import Mathlib

/-!
# Modbus-Slave-ENC28J60-WiFi: register loop, Modbus bring-up and the JRC_WiFi library

A shallow embedding of `main/main.c` and `components/JRC_WiFi/JRC_WiFi.c`.
Vendor calls (ESP-IDF WiFi/netif/event stack, esp-modbus) are not part of the
repository: the results they hand back are inputs of the model and every call
issued is recorded in a log.
-/

namespace ModbusSlave

/-! ## main.c: the register arrays and the `app_main` loop -/

/-- Number of holding registers, `#define MB_REG_HOLD_CNT (50)`. -/
def MB_REG_HOLD_CNT : Nat := 50

/-- Number of input registers, `#define MB_REG_INPUT_CNT (50)`. -/
def MB_REG_INPUT_CNT : Nat := 50

/-- Start offset of the input area, `#define MB_REG_INPUT_START_AREA0 (0)`. -/
def MB_REG_INPUT_START_AREA0 : Nat := 0

/-- Start offset of the holding area, `#define MB_REG_HOLDING_START_AREA0 (0)`. -/
def MB_REG_HOLDING_START_AREA0 : Nat := 0

/-- The two global arrays `holding_reg_area` and `input_reg_area` of `uint16_t`. -/
structure Registers where
  holding_reg_area : List Nat
  input_reg_area : List Nat
deriving DecidableEq, Repr

/-- The arrays as the C initialisers `= {0}` leave them. -/
def Registers.initial : Registers :=
  { holding_reg_area := List.replicate MB_REG_HOLD_CNT 0,
    input_reg_area := List.replicate MB_REG_INPUT_CNT 0 }

/-- Read-modify-write of element `i` of a `uint16_t` array: `a[i] = (uint16_t)(a[i] + d)`.
An index outside the array has no defined result (`none`). -/
def addAt (a : List Nat) (i d : Nat) : Option (List Nat) :=
  match a[i]? with
  | some v => some (a.set i ((v + d) % 65536))
  | none => none

/-- Body of the `for` loop: `holding_reg_area[i]++; input_reg_area[i]+=5;`. -/
def forBody (i : Nat) (r : Registers) : Option Registers :=
  match addAt r.holding_reg_area i 1 with
  | none => none
  | some h =>
    match addAt r.input_reg_area i 5 with
    | none => none
    | some inp => some { holding_reg_area := h, input_reg_area := inp }

/-- The loop `for (int i = 0; i < MB_REG_HOLD_CNT; i++) ...` from counter value `i` on.
The first argument bounds the number of condition tests; `none` when it is used up. -/
def forLoop : Nat → Nat → Registers → Option Registers
  | 0, _, _ => none
  | fuel + 1, i, r =>
    if i < MB_REG_HOLD_CNT then
      match forBody i r with
      | none => none
      | some r' => forLoop fuel (i + 1) r'
    else some r

/-- One execution of the body of `while (1)` in `app_main`: the critical section around
the `for` loop; `portENTER_CRITICAL`, `portEXIT_CRITICAL` and `vTaskDelay` do not touch
the arrays. -/
def app_main_body (r : Registers) : Option Registers :=
  forLoop (MB_REG_HOLD_CNT + 1) 0 r

/-- The first `k` executions of the body of `while (1)`. -/
def app_main_loop : Nat → Registers → Option Registers
  | 0, r => some r
  | k + 1, r =>
    match app_main_body r with
    | none => none
    | some r' => app_main_loop k r'

/-! ## Return codes, aborting checks and the sequencing of vendor calls -/

/-- The vendor type `esp_err_t` (a C `int`). -/
abbrev esp_err_t := Int

/-- Success code of the vendor stack. -/
def ESP_OK : esp_err_t := 0

/-- Generic failure code of the vendor stack. -/
def ESP_FAIL : esp_err_t := -1

/-- How a C function of the firmware ends: it returns a value and leaves the globals in
state `s`, or the process is aborted (`ESP_ERROR_CHECK`, `assert`) in state `s`. -/
inductive Exec (σ α : Type) where
  | done (a : α) (s : σ)
  | abort (s : σ)

/-- A C function body: it reads the results `ε` that the vendor stack hands back during
this invocation and transforms the globals `σ`. -/
def Prog (ε σ α : Type) : Type := ε → σ → Exec σ α

/-- Returning a value. -/
def Prog.pure {ε σ α : Type} (a : α) : Prog ε σ α := fun _ s => Exec.done a s

/-- Sequencing `x; f`: nothing after an abort is executed. -/
def Prog.bind {ε σ α β : Type} (x : Prog ε σ α) (f : α → Prog ε σ β) : Prog ε σ β :=
  fun e s =>
    match x e s with
    | Exec.done a s' => f a e s'
    | Exec.abort s' => Exec.abort s'

/-- The sequencing structure behind the `do` blocks of the embedding. -/
instance instMonadProg {ε σ : Type} : Monad (Prog ε σ) where
  pure := Prog.pure
  bind := Prog.bind

/-- The vendor macro `ESP_ERROR_CHECK(x)`: abort unless `x == ESP_OK`. -/
def ESP_ERROR_CHECK {ε σ : Type} (x : esp_err_t) : Prog ε σ Unit :=
  fun _ s => if x = ESP_OK then Exec.done () s else Exec.abort s

/-- The C macro `assert(p)` on a pointer: abort when it is `NULL` (0). -/
def assertPtr {ε σ : Type} (p : Nat) : Prog ε σ Unit :=
  fun _ s => if p ≠ 0 then Exec.done () s else Exec.abort s

/-- An `if (c) { x }` statement without `else`. -/
def Prog.when {ε σ : Type} (c : Prop) [Decidable c] (x : Prog ε σ Unit) : Prog ε σ Unit :=
  fun e s => if c then x e s else Exec.done () s

/-- Reading the globals. -/
def getS {ε σ : Type} : Prog ε σ σ := fun _ s => Exec.done s s

/-- Updating the globals. -/
def modS {ε σ : Type} (f : σ → σ) : Prog ε σ Unit := fun _ s => Exec.done () (f s)

/-- Reading the vendor results of this invocation. -/
def getE {ε σ : Type} : Prog ε σ ε := fun e s => Exec.done e s

/-! ## main.c: `modbus_slave_init` -/

/-- The register kinds used here, of the esp-modbus enum `mb_param_type_t`. -/
inductive mb_param_type_t where
  | MB_PARAM_HOLDING
  | MB_PARAM_INPUT
deriving DecidableEq, Repr

/-- Address stored in a descriptor: `NULL` (the zero-initialised global), or element 0 of
one of the two arrays. -/
inductive RegAddress where
  | null
  | holding_reg_area
  | input_reg_area
deriving DecidableEq, Repr

/-- The esp-modbus structure `mb_register_area_descriptor_t`. -/
structure mb_register_area_descriptor_t where
  start_offset : Nat
  type : mb_param_type_t
  address : RegAddress
  size : Nat
deriving DecidableEq, Repr

/-- The structure `mb_communication_info_t` as `modbus_slave_init` fills it
(`ip_addr = NULL` is 0; `ip_netif_ptr` is the global `eth_netif`). -/
structure mb_communication_info_t where
  ip_port : Nat
  ip_addr_type_is_ipv4 : Bool
  ip_mode_is_tcp : Bool
  ip_addr : Nat
  ip_netif_ptr : Nat
deriving DecidableEq, Repr

/-- Vendor calls issued by `modbus_slave_init`, with their arguments. -/
inductive MbCall where
  | mbc_slave_init_tcp
  | ESP_LOGE
  | mbc_slave_set_descriptor (d : mb_register_area_descriptor_t)
  | mbc_slave_setup (c : mb_communication_info_t)
  | mbc_slave_start
deriving DecidableEq, Repr

/-- What esp-modbus hands back during one run of `modbus_slave_init`: the return code of
each call and the handle `mbc_slave_init_tcp` stores in `slave_handler` (0 is `NULL`). -/
structure MbStack where
  ret : MbCall → esp_err_t
  slave_handler : Nat

/-- Globals of main.c used by `modbus_slave_init`, and the log of vendor calls. -/
structure MainState where
  reg_area : mb_register_area_descriptor_t
  eth_netif : Nat
  log : List MbCall
deriving DecidableEq, Repr

/-- Size in bytes of one `uint16_t`. -/
def sizeof_uint16_t : Nat := 2

/-- Value of `sizeof(holding_reg_area)`: 50 elements of 2 bytes. -/
def sizeof_holding_reg_area : Nat := MB_REG_HOLD_CNT * sizeof_uint16_t

/-- Value of `sizeof(input_reg_area)`: 50 elements of 2 bytes. -/
def sizeof_input_reg_area : Nat := MB_REG_INPUT_CNT * sizeof_uint16_t

/-- Issue a vendor call: it is appended to the log and its return code read. -/
def mbCall (c : MbCall) : Prog MbStack MainState esp_err_t :=
  fun e s => Exec.done (e.ret c) { s with log := s.log ++ [c] }

/-- The error log line `ESP_LOGE(TAG, "mb controller initialization fail.")`. -/
def mbLogError : Prog MbStack MainState Unit :=
  fun _ s => Exec.done () { s with log := s.log ++ [MbCall.ESP_LOGE] }

/-- The function `modbus_slave_init` of main.c. -/
def modbus_slave_init : Prog MbStack MainState esp_err_t := do
  -- Stage 1: `esp_err_t err = mbc_slave_init_tcp(&slave_handler);`
  let err ← mbCall MbCall.mbc_slave_init_tcp
  let slave_handler := (← getE).slave_handler
  Prog.when (slave_handler = 0 ∨ err ≠ ESP_OK) mbLogError
  -- Stage 2: the holding descriptor
  modS fun s => { s with reg_area := { s.reg_area with type := mb_param_type_t.MB_PARAM_HOLDING } }
  modS fun s => { s with reg_area := { s.reg_area with start_offset := MB_REG_HOLDING_START_AREA0 } }
  modS fun s => { s with reg_area := { s.reg_area with address := RegAddress.holding_reg_area } }
  modS fun s => { s with reg_area := { s.reg_area with size := sizeof_holding_reg_area <<< 1 } }
  ESP_ERROR_CHECK (← mbCall (MbCall.mbc_slave_set_descriptor (← getS).reg_area))
  -- the input descriptor
  modS fun s => { s with reg_area := { s.reg_area with type := mb_param_type_t.MB_PARAM_INPUT } }
  modS fun s => { s with reg_area := { s.reg_area with start_offset := MB_REG_INPUT_START_AREA0 } }
  modS fun s => { s with reg_area := { s.reg_area with address := RegAddress.input_reg_area } }
  modS fun s => { s with reg_area := { s.reg_area with size := sizeof_input_reg_area <<< 1 } }
  ESP_ERROR_CHECK (← mbCall (MbCall.mbc_slave_set_descriptor (← getS).reg_area))
  -- Stage 3: communication options
  let comm_info : mb_communication_info_t :=
    { ip_port := 502, ip_addr_type_is_ipv4 := true, ip_mode_is_tcp := true,
      ip_addr := 0, ip_netif_ptr := (← getS).eth_netif }
  ESP_ERROR_CHECK (← mbCall (MbCall.mbc_slave_setup comm_info))
  -- Stage 4: start
  ESP_ERROR_CHECK (← mbCall MbCall.mbc_slave_start)
  return ESP_OK

/-- The descriptors handed to `mbc_slave_set_descriptor`, in call order. -/
def registeredDescriptors : List MbCall → List mb_register_area_descriptor_t
  | [] => []
  | MbCall.mbc_slave_set_descriptor d :: rest => d :: registeredDescriptors rest
  | _ :: rest => registeredDescriptors rest

/-- Number of 16-bit registers covered by a descriptor whose `size` is in bytes. -/
def registersCovered (d : mb_register_area_descriptor_t) : Nat := d.size / sizeof_uint16_t

/-- Byte size of the array a descriptor points to. -/
def arrayBytes : RegAddress → Nat
  | RegAddress.null => 0
  | RegAddress.holding_reg_area => sizeof_holding_reg_area
  | RegAddress.input_reg_area => sizeof_input_reg_area

/-- Globals of main.c before `app_main` runs: `reg_area` zero-initialised, `eth_netif`
as given, nothing called yet. -/
def MainState.initial (eth_netif : Nat) : MainState :=
  { reg_area := { start_offset := 0, type := mb_param_type_t.MB_PARAM_HOLDING,
                  address := RegAddress.null, size := 0 },
    eth_netif := eth_netif, log := [] }

/-- Vendor results in which every call succeeds and the handle is non-null. -/
def MbStack.allOk : MbStack := { ret := fun _ => ESP_OK, slave_handler := 1 }

/-- The descriptor `reg_area` as built for the holding registers (main.c, lines 224-227). -/
def holdingDescriptor : mb_register_area_descriptor_t :=
  { start_offset := MB_REG_HOLDING_START_AREA0, type := mb_param_type_t.MB_PARAM_HOLDING,
    address := RegAddress.holding_reg_area, size := sizeof_holding_reg_area <<< 1 }

/-- The descriptor `reg_area` as built for the input registers (main.c, lines 230-233). -/
def inputDescriptor : mb_register_area_descriptor_t :=
  { start_offset := MB_REG_INPUT_START_AREA0, type := mb_param_type_t.MB_PARAM_INPUT,
    address := RegAddress.input_reg_area, size := sizeof_input_reg_area <<< 1 }

/-- The structure `comm_info` of `modbus_slave_init` for a given `eth_netif`. -/
def commInfo (eth_netif : Nat) : mb_communication_info_t :=
  { ip_port := 502, ip_addr_type_is_ipv4 := true, ip_mode_is_tcp := true,
    ip_addr := 0, ip_netif_ptr := eth_netif }

/-- Log entries of stage 1 of `modbus_slave_init`: the construction call, and the error
line when it handed back a null handle or an error code. -/
def stage1Log (e : MbStack) : List MbCall :=
  if e.slave_handler = 0 ∨ e.ret MbCall.mbc_slave_init_tcp ≠ ESP_OK then
    [MbCall.mbc_slave_init_tcp, MbCall.ESP_LOGE]
  else [MbCall.mbc_slave_init_tcp]

/-! ## JRC_WiFi.h and secrets.h: constants -/

/-- The type `JRC_WiFi_Status_t` (`typedef int`). -/
abbrev JRC_WiFi_Status_t := Int

/-- Status macro `JRC_WIFI_NOT_STARTED`. -/
def JRC_WIFI_NOT_STARTED : JRC_WiFi_Status_t := 0

/-- Status macro `JRC_WIFI_CONNECTED`. -/
def JRC_WIFI_CONNECTED : JRC_WiFi_Status_t := 1

/-- Status macro `JRC_WIFI_STARTED`. -/
def JRC_WIFI_STARTED : JRC_WiFi_Status_t := 2

/-- Status macro `JRC_WIFI_GOT_IP`. -/
def JRC_WIFI_GOT_IP : JRC_WiFi_Status_t := 3

/-- Status macro `JRC_WIFI_DISCONNECTED`. -/
def JRC_WIFI_DISCONNECTED : JRC_WiFi_Status_t := 4

/-- Status macro `JRC_WIFI_AP_STARTED`. -/
def JRC_WIFI_AP_STARTED : JRC_WiFi_Status_t := 5

/-- Capacity of the scan list, `#define DEFAULT_SCAN_LIST_SIZE 10`. -/
def DEFAULT_SCAN_LIST_SIZE : Nat := 10

/-- Documented size of a MAC text buffer, `#define MAC_ADDR_LENGTH 18`. -/
def MAC_ADDR_LENGTH : Nat := 18

/-- Documented size of an IP text buffer, `#define IP_ADDR_LENGTH 16`. -/
def IP_ADDR_LENGTH : Nat := 16

/-- Station SSID of secrets.h. -/
def WIFI_SSID : String := "XXXXXXXXXXXX"

/-- Station password of secrets.h. -/
def WIFI_PASSWORD : String := "XXXXXXXXXXXX"

/-- SoftAP SSID of secrets.h. -/
def WIFI_AP_SSID : String := "ESP32 JRC Tech"

/-- SoftAP password of secrets.h (empty). -/
def WIFI_AP_PASSWORD : String := ""

/-- Custom station MAC of secrets.h. -/
def JRC_WIFI_STA_CUSTOM_MAC : List Nat := [0x32, 0xAE, 0xA4, 0x07, 0x0D, 0x66]

/-- Custom SoftAP MAC of secrets.h. -/
def JRC_WIFI_AP_CUSTOM_MAC : List Nat := [0x32, 0xAE, 0xA4, 0x07, 0x0D, 0x67]

/-! ## Vendor types used by JRC_WiFi.c -/

/-- WiFi operating modes passed to `esp_wifi_set_mode`. -/
inductive wifi_mode_t where
  | WIFI_MODE_STA
  | WIFI_MODE_AP
  | WIFI_MODE_APSTA
deriving DecidableEq, Repr

/-- WiFi interfaces (`ESP_IF_WIFI_STA` is the vendor's older name of `WIFI_IF_STA`). -/
inductive wifi_interface_t where
  | WIFI_IF_STA
  | WIFI_IF_AP
deriving DecidableEq, Repr

/-- The two event bases the handler is registered on. -/
inductive esp_event_base_t where
  | WIFI_EVENT
  | IP_EVENT
deriving DecidableEq, Repr

/-- The event-id argument of the (un)registration calls. -/
inductive EventSel where
  | ESP_EVENT_ANY_ID
  | IP_EVENT_STA_GOT_IP
deriving DecidableEq, Repr

/-- Interface keys passed to `esp_netif_get_handle_from_ifkey`. -/
inductive IfKey where
  | WIFI_STA_DEF
  | WIFI_AP_DEF
deriving DecidableEq, Repr

/-- Authentication modes written into the SoftAP configuration. -/
inductive wifi_auth_mode_t where
  | WIFI_AUTH_OPEN
  | WIFI_AUTH_WPA2_PSK
deriving DecidableEq, Repr

/-- Fields of `wifi_sta_config_t` that the library sets. -/
structure wifi_sta_config_t where
  ssid : String
  password : String
deriving DecidableEq, Repr

/-- Fields of `wifi_ap_config_t` that the library sets. -/
structure wifi_ap_config_t where
  ssid : String
  password : String
  ssid_len : Nat
  channel : Nat
  authmode : wifi_auth_mode_t
  max_connection : Nat
  pmf_required : Bool
deriving DecidableEq, Repr

/-- The union `wifi_config_t`. -/
inductive wifi_config_t where
  | sta (c : wifi_sta_config_t)
  | ap (c : wifi_ap_config_t)
deriving DecidableEq, Repr

/-- An access-point record `wifi_ap_record_t` (the fields the library reads). -/
structure wifi_ap_record_t where
  bssid : List Nat
  ssid : List Nat
  primary : Nat
  rssi : Int
  authmode : Nat
  pairwise_cipher : Nat
  group_cipher : Nat
deriving DecidableEq, Repr

/-- A record after `memset(.., 0, ..)`. -/
def wifi_ap_record_t.zero : wifi_ap_record_t :=
  { bssid := List.replicate 6 0, ssid := List.replicate 33 0, primary := 0, rssi := 0,
    authmode := 0, pairwise_cipher := 0, group_cipher := 0 }

/-- The structure `esp_netif_ip_info_t`: three IPv4 addresses as 32-bit words. -/
structure esp_netif_ip_info_t where
  ip : Nat
  netmask : Nat
  gw : Nat
deriving DecidableEq, Repr

/-- Vendor calls issued by JRC_WiFi.c, with the arguments that tell them apart. -/
inductive StackCall where
  | nvs_flash_init
  | esp_netif_init
  | esp_event_loop_create_default
  | esp_netif_create_default_wifi_sta
  | esp_netif_create_default_wifi_ap
  | esp_wifi_init
  | esp_wifi_set_storage_ram
  | esp_event_handler_register (base : esp_event_base_t) (id : EventSel)
  | esp_event_handler_unregister (base : esp_event_base_t) (id : EventSel)
  | esp_wifi_set_mode (m : wifi_mode_t)
  | esp_wifi_set_config (ifx : wifi_interface_t) (c : wifi_config_t)
  | esp_wifi_set_mac (ifx : wifi_interface_t) (mac : List Nat)
  | esp_wifi_start
  | esp_wifi_connect
  | esp_wifi_disconnect
  | esp_wifi_stop
  | esp_wifi_deinit
  | esp_netif_get_handle_from_ifkey (key : IfKey)
  | esp_netif_destroy (netif : Nat)
  | esp_wifi_scan_start
  | esp_wifi_scan_get_ap_records (number : Nat)
  | esp_wifi_scan_get_ap_num
  | esp_wifi_sta_get_ap_info
  | esp_wifi_get_mac (ifx : wifi_interface_t)
  | esp_netif_get_ip_info (netif : Nat)
deriving DecidableEq, Repr

/-- What the vendor stack hands back during one invocation of a library function: the
return code of each call, the pointer returned by each pointer-valued call (0 is `NULL`),
and the data it stores through out-parameters. -/
structure Stack where
  ret : StackCall → esp_err_t
  handle : StackCall → Nat
  mac : Nat → Nat
  ip_info : esp_netif_ip_info_t
  ap_records : List wifi_ap_record_t
  ap_num : Nat
  ap_info : wifi_ap_record_t

/-- Globals of the WiFi library (`WiFi_Status`, `esp_netif_ptr`) and the log of vendor
calls issued so far, oldest first. -/
structure World where
  WiFi_Status : JRC_WiFi_Status_t
  esp_netif_ptr : Nat
  log : List StackCall
deriving DecidableEq, Repr

/-- The globals at program start: `WiFi_Status = JRC_WIFI_NOT_STARTED`,
`esp_netif_ptr = NULL`. -/
def World.initial : World :=
  { WiFi_Status := JRC_WIFI_NOT_STARTED, esp_netif_ptr := 0, log := [] }

/-- Issue a vendor call returning `esp_err_t`. -/
def call (c : StackCall) : Prog Stack World esp_err_t :=
  fun e w => Exec.done (e.ret c) { w with log := w.log ++ [c] }

/-- Issue a vendor call returning a pointer. -/
def callPtr (c : StackCall) : Prog Stack World Nat :=
  fun e w => Exec.done (e.handle c) { w with log := w.log ++ [c] }

/-- Caller memory seen through a pointer: the cell at each offset (in elements) from the
pointer, and the offsets stored to so far, oldest first. -/
structure Mem (α : Type) where
  cell : Nat → α
  written : List Nat

/-- The store `p[i] = v`. -/
def Mem.store {α : Type} (m : Mem α) (i : Nat) (v : α) : Mem α :=
  { cell := fun j => if j = i then v else m.cell j, written := m.written ++ [i] }

/-- Consecutive stores of `vs` at offsets `off`, `off + 1`, ... -/
def Mem.storeList {α : Type} (m : Mem α) (off : Nat) : List α → Mem α
  | [] => m
  | v :: vs => (m.store off v).storeList (off + 1) vs

/-- Memory of constant content with nothing stored yet. -/
def Mem.fresh {α : Type} (a : α) : Mem α := { cell := fun _ => a, written := [] }

/-! ## JRC_WiFi.c: the event handler -/

/-- Numeric values of the vendor event ids that label the `case`s of
`wifi_event_handler`. The enums are declared in vendor headers; C requires the labels of
one `switch` to be pairwise distinct. -/
structure EventIds where
  WIFI_EVENT_STA_START : Int
  WIFI_EVENT_STA_CONNECTED : Int
  IP_EVENT_STA_GOT_IP : Int
  WIFI_EVENT_STA_DISCONNECTED : Int
  WIFI_EVENT_AP_START : Int
  WIFI_EVENT_AP_STADISCONNECTED : Int
  WIFI_EVENT_AP_STACONNECTED : Int
deriving DecidableEq, Repr

/-- The reads `event->mac` and `event->aid` through the payload pointer `event_data` for
the log line of a client join or leave: through a `NULL` pointer (0) the load faults and
the process stops. -/
def readPayload {ε σ : Type} (event_data : Nat) : Prog ε σ Unit :=
  fun _ s => if event_data ≠ 0 then Exec.done () s else Exec.abort s

/-- The callback `wifi_event_handler`: a `switch` on `event_id` alone, rendered as a chain
of tests in label order; `event_base` is never read, `event_data` only in the client
join and leave cases. The text of the log output (`ESP_LOGI`) is not modelled. -/
def wifi_event_handler (ids : EventIds) (_event_base : esp_event_base_t) (event_id : Int)
    (event_data : Nat) : Prog Stack World Unit :=
  if event_id = ids.WIFI_EVENT_STA_START then do
    modS fun w => { w with WiFi_Status := JRC_WIFI_STARTED }
    let _ ← call StackCall.esp_wifi_connect
  else if event_id = ids.WIFI_EVENT_STA_CONNECTED then
    modS fun w => { w with WiFi_Status := JRC_WIFI_CONNECTED }
  else if event_id = ids.IP_EVENT_STA_GOT_IP then
    modS fun w => { w with WiFi_Status := JRC_WIFI_GOT_IP }
  else if event_id = ids.WIFI_EVENT_STA_DISCONNECTED then do
    modS fun w => { w with WiFi_Status := JRC_WIFI_DISCONNECTED }
    let _ ← call StackCall.esp_wifi_connect
  else if event_id = ids.WIFI_EVENT_AP_START then
    modS fun w => { w with WiFi_Status := JRC_WIFI_AP_STARTED }
  else if event_id = ids.WIFI_EVENT_AP_STADISCONNECTED then
    readPayload event_data
  else if event_id = ids.WIFI_EVENT_AP_STACONNECTED then
    readPayload event_data
  else
    pure ()

/-! ## JRC_WiFi.c: status, stop and the three begin variants -/

/-- The function `JRC_WiFi_Get_Status`: `return WiFi_Status;`. -/
def JRC_WiFi_Get_Status : Prog Stack World JRC_WiFi_Status_t :=
  fun _ w => Exec.done w.WiFi_Status w

/-- The function `JRC_WiFi_Stop`. -/
def JRC_WiFi_Stop : Prog Stack World esp_err_t := do
  let _ ← call StackCall.esp_wifi_disconnect
  let _ ← call StackCall.esp_wifi_stop
  let _ ← call StackCall.esp_wifi_deinit
  let netif_sta ← callPtr (StackCall.esp_netif_get_handle_from_ifkey IfKey.WIFI_STA_DEF)
  Prog.when (netif_sta ≠ 0) do
    let _ ← call (StackCall.esp_netif_destroy netif_sta)
  let netif_ap ← callPtr (StackCall.esp_netif_get_handle_from_ifkey IfKey.WIFI_AP_DEF)
  Prog.when (netif_ap ≠ 0) do
    let _ ← call (StackCall.esp_netif_destroy netif_ap)
  let _ ← call (StackCall.esp_event_handler_unregister esp_event_base_t.WIFI_EVENT
    EventSel.ESP_EVENT_ANY_ID)
  let _ ← call (StackCall.esp_event_handler_unregister esp_event_base_t.IP_EVENT
    EventSel.IP_EVENT_STA_GOT_IP)
  modS fun w => { w with WiFi_Status := JRC_WIFI_NOT_STARTED }
  return ESP_OK

/-- The opening shared by the three begin variants: `nvs_flash_init();` and the stop of a
previously started WiFi. -/
def beginPrologue : Prog Stack World Unit := do
  let _ ← call StackCall.nvs_flash_init
  let st ← JRC_WiFi_Get_Status
  Prog.when (st ≠ JRC_WIFI_NOT_STARTED) do
    let _ ← JRC_WiFi_Stop

/-- The station configuration built from secrets.h. -/
def wifi_sta_cfg : wifi_sta_config_t := { ssid := WIFI_SSID, password := WIFI_PASSWORD }

/-- The SoftAP configuration built from secrets.h for a given channel; the mode falls
back to open when the password is empty. -/
def wifi_ap_cfg (channel : Nat) : wifi_ap_config_t :=
  { ssid := WIFI_AP_SSID, password := WIFI_AP_PASSWORD,
    ssid_len := WIFI_AP_SSID.length, channel := channel,
    authmode := if WIFI_AP_PASSWORD.length = 0 then wifi_auth_mode_t.WIFI_AUTH_OPEN
                else wifi_auth_mode_t.WIFI_AUTH_WPA2_PSK,
    max_connection := 4, pmf_required := false }

/-- The function `JRC_WiFi_Begin` (station mode). -/
def JRC_WiFi_Begin : Prog Stack World esp_err_t := do
  beginPrologue
  -- Stage 1
  let _ ← call StackCall.esp_netif_init
  let _ ← call StackCall.esp_event_loop_create_default
  let p ← callPtr StackCall.esp_netif_create_default_wifi_sta
  modS fun w => { w with esp_netif_ptr := p }
  let _ ← call StackCall.esp_wifi_init
  let _ ← call StackCall.esp_wifi_set_storage_ram
  -- Stage 2
  let _ ← call (StackCall.esp_event_handler_register esp_event_base_t.WIFI_EVENT
    EventSel.ESP_EVENT_ANY_ID)
  let _ ← call (StackCall.esp_event_handler_register esp_event_base_t.IP_EVENT
    EventSel.IP_EVENT_STA_GOT_IP)
  ESP_ERROR_CHECK (← call (StackCall.esp_wifi_set_mode wifi_mode_t.WIFI_MODE_STA))
  ESP_ERROR_CHECK (← call (StackCall.esp_wifi_set_config wifi_interface_t.WIFI_IF_STA
    (wifi_config_t.sta wifi_sta_cfg)))
  let _ ← call (StackCall.esp_wifi_set_mac wifi_interface_t.WIFI_IF_STA JRC_WIFI_STA_CUSTOM_MAC)
  -- Stage 3
  ESP_ERROR_CHECK (← call StackCall.esp_wifi_start)
  return ESP_OK

/-- The function `JRC_WiFi_Begin_AP` (SoftAP mode). -/
def JRC_WiFi_Begin_AP : Prog Stack World esp_err_t := do
  beginPrologue
  -- Stage 1
  let _ ← call StackCall.esp_netif_init
  let _ ← call StackCall.esp_event_loop_create_default
  let _ ← callPtr StackCall.esp_netif_create_default_wifi_ap
  let _ ← call StackCall.esp_wifi_init
  let _ ← call StackCall.esp_wifi_set_storage_ram
  -- Stage 2
  ESP_ERROR_CHECK (← call (StackCall.esp_event_handler_register esp_event_base_t.WIFI_EVENT
    EventSel.ESP_EVENT_ANY_ID))
  ESP_ERROR_CHECK (← call (StackCall.esp_wifi_set_mode wifi_mode_t.WIFI_MODE_AP))
  ESP_ERROR_CHECK (← call (StackCall.esp_wifi_set_config wifi_interface_t.WIFI_IF_AP
    (wifi_config_t.ap (wifi_ap_cfg 1))))
  let _ ← call (StackCall.esp_wifi_set_mac wifi_interface_t.WIFI_IF_AP JRC_WIFI_AP_CUSTOM_MAC)
  -- Stage 3
  ESP_ERROR_CHECK (← call StackCall.esp_wifi_start)
  return ESP_OK

/-- The function `JRC_WiFi_Begin_STA_AP` (station + SoftAP mode). -/
def JRC_WiFi_Begin_STA_AP : Prog Stack World esp_err_t := do
  beginPrologue
  -- Stage 1
  let _ ← call StackCall.esp_netif_init
  let _ ← call StackCall.esp_event_loop_create_default
  let _ ← callPtr StackCall.esp_netif_create_default_wifi_sta
  let _ ← callPtr StackCall.esp_netif_create_default_wifi_ap
  let _ ← call StackCall.esp_wifi_init
  let _ ← call StackCall.esp_wifi_set_storage_ram
  -- Stage 2
  ESP_ERROR_CHECK (← call (StackCall.esp_wifi_set_mode wifi_mode_t.WIFI_MODE_APSTA))
  let _ ← call (StackCall.esp_event_handler_register esp_event_base_t.WIFI_EVENT
    EventSel.ESP_EVENT_ANY_ID)
  let _ ← call (StackCall.esp_event_handler_register esp_event_base_t.IP_EVENT
    EventSel.IP_EVENT_STA_GOT_IP)
  ESP_ERROR_CHECK (← call (StackCall.esp_wifi_set_config wifi_interface_t.WIFI_IF_STA
    (wifi_config_t.sta wifi_sta_cfg)))
  let _ ← call (StackCall.esp_wifi_set_mac wifi_interface_t.WIFI_IF_STA JRC_WIFI_STA_CUSTOM_MAC)
  ESP_ERROR_CHECK (← call (StackCall.esp_wifi_set_config wifi_interface_t.WIFI_IF_AP
    (wifi_config_t.ap (wifi_ap_cfg 0))))
  let _ ← call (StackCall.esp_wifi_set_mac wifi_interface_t.WIFI_IF_AP JRC_WIFI_AP_CUSTOM_MAC)
  -- Stage 3
  ESP_ERROR_CHECK (← call StackCall.esp_wifi_start)
  return ESP_OK

/-- The three begin variants. -/
inductive BeginMode where
  | station
  | access_point
  | station_access_point
deriving DecidableEq, Repr

/-- The begin function of a mode. -/
def JRC_WiFi_begin : BeginMode → Prog Stack World esp_err_t
  | BeginMode.station => JRC_WiFi_Begin
  | BeginMode.access_point => JRC_WiFi_Begin_AP
  | BeginMode.station_access_point => JRC_WiFi_Begin_STA_AP

/-- The stack calls of a begin variant that are wrapped in `ESP_ERROR_CHECK`. -/
def checkedCalls : BeginMode → List StackCall
  | BeginMode.station =>
    [StackCall.esp_wifi_set_mode wifi_mode_t.WIFI_MODE_STA,
     StackCall.esp_wifi_set_config wifi_interface_t.WIFI_IF_STA (wifi_config_t.sta wifi_sta_cfg),
     StackCall.esp_wifi_start]
  | BeginMode.access_point =>
    [StackCall.esp_event_handler_register esp_event_base_t.WIFI_EVENT EventSel.ESP_EVENT_ANY_ID,
     StackCall.esp_wifi_set_mode wifi_mode_t.WIFI_MODE_AP,
     StackCall.esp_wifi_set_config wifi_interface_t.WIFI_IF_AP (wifi_config_t.ap (wifi_ap_cfg 1)),
     StackCall.esp_wifi_start]
  | BeginMode.station_access_point =>
    [StackCall.esp_wifi_set_mode wifi_mode_t.WIFI_MODE_APSTA,
     StackCall.esp_wifi_set_config wifi_interface_t.WIFI_IF_STA (wifi_config_t.sta wifi_sta_cfg),
     StackCall.esp_wifi_set_config wifi_interface_t.WIFI_IF_AP (wifi_config_t.ap (wifi_ap_cfg 0)),
     StackCall.esp_wifi_start]

/-- Whether a call belongs to the teardown performed by `JRC_WiFi_Stop`. -/
def isStopCall : StackCall → Bool
  | StackCall.esp_wifi_disconnect => true
  | StackCall.esp_wifi_stop => true
  | StackCall.esp_wifi_deinit => true
  | StackCall.esp_netif_get_handle_from_ifkey _ => true
  | StackCall.esp_netif_destroy _ => true
  | StackCall.esp_event_handler_unregister _ _ => true
  | _ => false

/-- The handles passed to `esp_netif_destroy` in a log, in call order. -/
def destroyed : List StackCall → List Nat
  | [] => []
  | StackCall.esp_netif_destroy h :: rest => h :: destroyed rest
  | _ :: rest => destroyed rest

/-- Vendor results in which every call returns `ESP_OK` and every pointer is non-null. -/
def Stack.allOk : Stack :=
  { ret := fun _ => ESP_OK, handle := fun _ => 1, mac := fun _ => 0,
    ip_info := { ip := 0, netmask := 0, gw := 0 }, ap_records := [], ap_num := 0,
    ap_info := wifi_ap_record_t.zero }

/-! ## JRC_WiFi.c: the query functions -/

/-- The function `JRC_WiFi_AP_Info`: the record fetched by `esp_wifi_sta_get_ap_info`
(return code ignored) is logged when `apinfo` is `NULL`, else copied to `*apinfo`. -/
def JRC_WiFi_AP_Info (apinfo : Option (Mem wifi_ap_record_t)) :
    Prog Stack World (esp_err_t × Option (Mem wifi_ap_record_t)) := do
  let _ ← call StackCall.esp_wifi_sta_get_ap_info
  let ap_info := (← getE).ap_info
  match apinfo with
  | none => return (ESP_OK, none)
  | some m => return (ESP_OK, some (m.store 0 ap_info))

/-- The terminator character of C strings. -/
def NUL : Char := Char.ofNat 0

/-- The conversion `%02x` of `printf` applied to a `uint8_t` argument: two lowercase
hexadecimal digits. -/
def fmt_02x (v : Nat) : List Char := [Nat.digitChar (v / 16 % 16), Nat.digitChar (v % 16)]

/-- The characters produced by the format `"%02x:%02x:%02x:%02x:%02x:%02x%c"` for six
bytes and the character argument `c`. -/
def macFormat (m : List Nat) (c : Char) : List Char :=
  fmt_02x (m.getD 0 0) ++ [':'] ++ fmt_02x (m.getD 1 0) ++ [':'] ++ fmt_02x (m.getD 2 0) ++
  [':'] ++ fmt_02x (m.getD 3 0) ++ [':'] ++ fmt_02x (m.getD 4 0) ++ [':'] ++
  fmt_02x (m.getD 5 0) ++ [c]

/-- The libc function `sprintf(dst, ...)`: it stores the formatted characters and then a
terminating null character. -/
def sprintf (dst : Mem Char) (formatted : List Char) : Mem Char :=
  dst.storeList 0 (formatted ++ [NUL])

/-- The local array `uint8_t mac_address[6]` after `esp_wifi_get_mac`. -/
def macBytes (e : Stack) : List Nat := (List.range 6).map fun i => e.mac i % 256

/-- The function `JRC_WiFi_STA_MAC_Address`. -/
def JRC_WiFi_STA_MAC_Address (mac : Option (Mem Char)) :
    Prog Stack World (esp_err_t × Option (Mem Char)) := do
  let _ ← call (StackCall.esp_wifi_get_mac wifi_interface_t.WIFI_IF_STA)
  let mac_address := macBytes (← getE)
  match mac with
  | none => return (ESP_OK, none)
  | some m => return (ESP_OK, some (sprintf m (macFormat mac_address NUL)))

/-- Decimal digits of a byte, without leading zeros (part of the model of
`esp_ip4addr_ntoa` below). -/
def decimalOfByte (b : Nat) : List Char :=
  if b < 10 then [Nat.digitChar b]
  else if b < 100 then [Nat.digitChar (b / 10), Nat.digitChar (b % 10)]
  else [Nat.digitChar (b / 100), Nat.digitChar (b / 10 % 10), Nat.digitChar (b % 10)]

/-- Byte `i` (in memory order on the little-endian target) of a 32-bit address word
(part of the model of `esp_ip4addr_ntoa` below). -/
def octet (addr i : Nat) : Nat := addr / 256 ^ i % 256

/-- Dotted-decimal text of a 32-bit IPv4 address word (part of the model of
`esp_ip4addr_ntoa` below). -/
def dottedDecimal (addr : Nat) : List Char :=
  decimalOfByte (octet addr 0) ++ ['.'] ++ decimalOfByte (octet addr 1) ++ ['.'] ++
  decimalOfByte (octet addr 2) ++ ['.'] ++ decimalOfByte (octet addr 3)

/-- Modelled from the spec: `esp_ip4addr_ntoa` is a function of the vendor TCP/IP stack,
absent from the repository; the spec says the IP-family queries give the address as
text, which the header comments call the IP address, subnet mask and gateway. It stores
the dotted-decimal text and its terminator into `buf`, never more than `buflen` bytes. -/
def esp_ip4addr_ntoa (addr : Nat) (buf : Mem Char) (buflen : Nat) : Mem Char :=
  buf.storeList 0 ((dottedDecimal addr ++ [NUL]).take buflen)

/-- The common body of the three IP-family queries; `field` selects the member of
`ip_info` that is printed. -/
def ipQuery (field : esp_netif_ip_info_t → Nat) (out : Option (Mem Char)) :
    Prog Stack World (esp_err_t × Option (Mem Char)) := do
  let netif ← callPtr (StackCall.esp_netif_get_handle_from_ifkey IfKey.WIFI_STA_DEF)
  let ret ← call (StackCall.esp_netif_get_ip_info netif)
  let ip_info := (← getE).ip_info
  if ret = ESP_OK then
    match out with
    | none => return (ret, none)
    | some m => return (ret, some (esp_ip4addr_ntoa (field ip_info) m IP_ADDR_LENGTH))
  else
    return (ret, out)

/-- The function `JRC_WiFi_STA_IP_Address`: prints `ip_info.ip`. -/
def JRC_WiFi_STA_IP_Address (ipAdd : Option (Mem Char)) :
    Prog Stack World (esp_err_t × Option (Mem Char)) :=
  ipQuery (fun i => i.ip) ipAdd

/-- The function `JRC_WiFi_STA_Subnet_Mask`: prints `ip_info.netmask`. -/
def JRC_WiFi_STA_Subnet_Mask (snMask : Option (Mem Char)) :
    Prog Stack World (esp_err_t × Option (Mem Char)) :=
  ipQuery (fun i => i.netmask) snMask

/-- The function `JRC_WiFi_STA_Gateway`: prints `ip_info.gw`. -/
def JRC_WiFi_STA_Gateway (gateWay : Option (Mem Char)) :
    Prog Stack World (esp_err_t × Option (Mem Char)) :=
  ipQuery (fun i => i.gw) gateWay

/-! ## JRC_WiFi.c: the scan -/

/-- The one-off station bring-up at the start of `JRC_WiFi_Scan`. -/
def scanBringUp : Prog Stack World Unit := do
  let _ ← call StackCall.nvs_flash_init
  ESP_ERROR_CHECK (← call StackCall.esp_netif_init)
  ESP_ERROR_CHECK (← call StackCall.esp_event_loop_create_default)
  let sta_netif ← callPtr StackCall.esp_netif_create_default_wifi_sta
  assertPtr sta_netif
  ESP_ERROR_CHECK (← call StackCall.esp_wifi_init)
  let _ ← call StackCall.esp_wifi_set_storage_ram
  ESP_ERROR_CHECK (← call (StackCall.esp_wifi_set_mode wifi_mode_t.WIFI_MODE_STA))
  let _ ← call (StackCall.esp_wifi_set_mac wifi_interface_t.WIFI_IF_STA JRC_WIFI_STA_CUSTOM_MAC)
  ESP_ERROR_CHECK (← call StackCall.esp_wifi_start)
  modS fun w => { w with WiFi_Status := JRC_WIFI_STARTED }

/-- The local array `ap_info[DEFAULT_SCAN_LIST_SIZE]` after `memset` and
`esp_wifi_scan_get_ap_records(&number, ap_info)`: slot `i` holds the `i`-th retrieved
record when the stack retrieved one and stays zeroed otherwise. -/
def scanArray (e : Stack) (number : Nat) : List wifi_ap_record_t :=
  (List.range DEFAULT_SCAN_LIST_SIZE).map fun i =>
    if i < number then e.ap_records.getD i wifi_ap_record_t.zero else wifi_ap_record_t.zero

/-- The copy loop `for (int i = 0; (i < DEFAULT_SCAN_LIST_SIZE) && (i < ap_count); i++)
dst[i] = ap_info[i];` from counter value `i` on. The first argument bounds the number of
condition tests. -/
def scanCopyLoop : Nat → Nat → Nat → List wifi_ap_record_t → Mem wifi_ap_record_t →
    Mem wifi_ap_record_t
  | 0, _, _, _, dst => dst
  | fuel + 1, i, ap_count, ap_info, dst =>
    if i < DEFAULT_SCAN_LIST_SIZE ∧ i < ap_count then
      scanCopyLoop fuel (i + 1) ap_count ap_info
        (dst.store i (ap_info.getD i wifi_ap_record_t.zero))
    else dst

/-- The function `JRC_WiFi_Scan`. With a `NULL` argument the records are only logged. -/
def JRC_WiFi_Scan (ap_found_info : Option (Mem wifi_ap_record_t)) :
    Prog Stack World (esp_err_t × Option (Mem wifi_ap_record_t)) := do
  Prog.when ((← getS).WiFi_Status = JRC_WIFI_NOT_STARTED) scanBringUp
  let number := DEFAULT_SCAN_LIST_SIZE
  let _ ← call StackCall.esp_wifi_scan_start
  ESP_ERROR_CHECK (← call (StackCall.esp_wifi_scan_get_ap_records number))
  let ap_info := scanArray (← getE) number
  ESP_ERROR_CHECK (← call StackCall.esp_wifi_scan_get_ap_num)
  let ap_count := (← getE).ap_num % 65536
  match ap_found_info with
  | none => return (ESP_OK, none)
  | some dst =>
    return (ESP_OK, some (scanCopyLoop (DEFAULT_SCAN_LIST_SIZE + 1) 0 ap_count ap_info dst))

/-! ## The library as a transition system -/

/-- One use of the library: a call of one of its functions, or the delivery of an event
to the registered callback. -/
inductive Op where
  | begin (m : BeginMode)
  | stop
  | scan (ap_found_info : Option (Mem wifi_ap_record_t))
  | ap_info (apinfo : Option (Mem wifi_ap_record_t))
  | sta_mac (mac : Option (Mem Char))
  | sta_ip (ipAdd : Option (Mem Char))
  | sta_subnet_mask (snMask : Option (Mem Char))
  | sta_gateway (gateWay : Option (Mem Char))
  | get_status
  | event (event_base : esp_event_base_t) (event_id : Int) (event_data : Nat)

/-- Drop the value a function returns. -/
def discard {ε σ α : Type} (x : Prog ε σ α) : Prog ε σ Unit :=
  fun e s =>
    match x e s with
    | Exec.done _ s' => Exec.done () s'
    | Exec.abort s' => Exec.abort s'

/-- Effect of one use of the library on the globals. -/
def runOp (ids : EventIds) : Op → Prog Stack World Unit
  | Op.begin m => discard (JRC_WiFi_begin m)
  | Op.stop => discard JRC_WiFi_Stop
  | Op.scan b => discard (JRC_WiFi_Scan b)
  | Op.ap_info b => discard (JRC_WiFi_AP_Info b)
  | Op.sta_mac b => discard (JRC_WiFi_STA_MAC_Address b)
  | Op.sta_ip b => discard (JRC_WiFi_STA_IP_Address b)
  | Op.sta_subnet_mask b => discard (JRC_WiFi_STA_Subnet_Mask b)
  | Op.sta_gateway b => discard (JRC_WiFi_STA_Gateway b)
  | Op.get_status => discard JRC_WiFi_Get_Status
  | Op.event b i d => wifi_event_handler ids b i d

/-- The state in which an execution ends, returned or aborted. -/
def Exec.state {σ α : Type} : Exec σ α → σ
  | Exec.done _ s => s
  | Exec.abort s => s

/-- States reachable from program start by uses of the library, each with its own vendor
results. -/
inductive Reachable (ids : EventIds) : World → Prop where
  | start : Reachable ids World.initial
  | step (w : World) (e : Stack) (op : Op) :
      Reachable ids w → Reachable ids (runOp ids op e w).state

/-- The six values documented for the status. -/
def documentedStatus (s : JRC_WiFi_Status_t) : Prop :=
  s = JRC_WIFI_NOT_STARTED ∨ s = JRC_WIFI_STARTED ∨ s = JRC_WIFI_CONNECTED ∨
  s = JRC_WIFI_GOT_IP ∨ s = JRC_WIFI_DISCONNECTED ∨ s = JRC_WIFI_AP_STARTED

/-! ## Call sequences read off the source, used to state results -/

/-- The calls `JRC_WiFi_Stop` issues, in order: `esp_netif_destroy` only for a handle that
resolved to non-null. -/
def stopLog (e : Stack) : List StackCall :=
  [StackCall.esp_wifi_disconnect, StackCall.esp_wifi_stop, StackCall.esp_wifi_deinit,
   StackCall.esp_netif_get_handle_from_ifkey IfKey.WIFI_STA_DEF] ++
  (if e.handle (StackCall.esp_netif_get_handle_from_ifkey IfKey.WIFI_STA_DEF) ≠ 0 then
    [StackCall.esp_netif_destroy
      (e.handle (StackCall.esp_netif_get_handle_from_ifkey IfKey.WIFI_STA_DEF))]
   else []) ++
  [StackCall.esp_netif_get_handle_from_ifkey IfKey.WIFI_AP_DEF] ++
  (if e.handle (StackCall.esp_netif_get_handle_from_ifkey IfKey.WIFI_AP_DEF) ≠ 0 then
    [StackCall.esp_netif_destroy
      (e.handle (StackCall.esp_netif_get_handle_from_ifkey IfKey.WIFI_AP_DEF))]
   else []) ++
  [StackCall.esp_event_handler_unregister esp_event_base_t.WIFI_EVENT EventSel.ESP_EVENT_ANY_ID,
   StackCall.esp_event_handler_unregister esp_event_base_t.IP_EVENT
     EventSel.IP_EVENT_STA_GOT_IP]

/-- The globals after the opening of a begin variant: a started WiFi has been stopped. -/
def afterPrologue (e : Stack) (w : World) : World :=
  if w.WiFi_Status ≠ JRC_WIFI_NOT_STARTED then
    { WiFi_Status := JRC_WIFI_NOT_STARTED, esp_netif_ptr := w.esp_netif_ptr,
      log := w.log ++ [StackCall.nvs_flash_init] ++ stopLog e }
  else { w with log := w.log ++ [StackCall.nvs_flash_init] }

/-- The calls a begin variant issues after its opening when no check fails. -/
def bringUpLog : BeginMode → List StackCall
  | BeginMode.station =>
    [StackCall.esp_netif_init, StackCall.esp_event_loop_create_default,
     StackCall.esp_netif_create_default_wifi_sta, StackCall.esp_wifi_init,
     StackCall.esp_wifi_set_storage_ram,
     StackCall.esp_event_handler_register esp_event_base_t.WIFI_EVENT EventSel.ESP_EVENT_ANY_ID,
     StackCall.esp_event_handler_register esp_event_base_t.IP_EVENT EventSel.IP_EVENT_STA_GOT_IP,
     StackCall.esp_wifi_set_mode wifi_mode_t.WIFI_MODE_STA,
     StackCall.esp_wifi_set_config wifi_interface_t.WIFI_IF_STA (wifi_config_t.sta wifi_sta_cfg),
     StackCall.esp_wifi_set_mac wifi_interface_t.WIFI_IF_STA JRC_WIFI_STA_CUSTOM_MAC,
     StackCall.esp_wifi_start]
  | BeginMode.access_point =>
    [StackCall.esp_netif_init, StackCall.esp_event_loop_create_default,
     StackCall.esp_netif_create_default_wifi_ap, StackCall.esp_wifi_init,
     StackCall.esp_wifi_set_storage_ram,
     StackCall.esp_event_handler_register esp_event_base_t.WIFI_EVENT EventSel.ESP_EVENT_ANY_ID,
     StackCall.esp_wifi_set_mode wifi_mode_t.WIFI_MODE_AP,
     StackCall.esp_wifi_set_config wifi_interface_t.WIFI_IF_AP (wifi_config_t.ap (wifi_ap_cfg 1)),
     StackCall.esp_wifi_set_mac wifi_interface_t.WIFI_IF_AP JRC_WIFI_AP_CUSTOM_MAC,
     StackCall.esp_wifi_start]
  | BeginMode.station_access_point =>
    [StackCall.esp_netif_init, StackCall.esp_event_loop_create_default,
     StackCall.esp_netif_create_default_wifi_sta, StackCall.esp_netif_create_default_wifi_ap,
     StackCall.esp_wifi_init, StackCall.esp_wifi_set_storage_ram,
     StackCall.esp_wifi_set_mode wifi_mode_t.WIFI_MODE_APSTA,
     StackCall.esp_event_handler_register esp_event_base_t.WIFI_EVENT EventSel.ESP_EVENT_ANY_ID,
     StackCall.esp_event_handler_register esp_event_base_t.IP_EVENT EventSel.IP_EVENT_STA_GOT_IP,
     StackCall.esp_wifi_set_config wifi_interface_t.WIFI_IF_STA (wifi_config_t.sta wifi_sta_cfg),
     StackCall.esp_wifi_set_mac wifi_interface_t.WIFI_IF_STA JRC_WIFI_STA_CUSTOM_MAC,
     StackCall.esp_wifi_set_config wifi_interface_t.WIFI_IF_AP (wifi_config_t.ap (wifi_ap_cfg 0)),
     StackCall.esp_wifi_set_mac wifi_interface_t.WIFI_IF_AP JRC_WIFI_AP_CUSTOM_MAC,
     StackCall.esp_wifi_start]

/-- The value of the global `esp_netif_ptr` after a begin variant: only the station
variant assigns it. -/
def netifPtrAfter (m : BeginMode) (e : Stack) (w : World) : Nat :=
  match m with
  | BeginMode.station => e.handle StackCall.esp_netif_create_default_wifi_sta
  | _ => w.esp_netif_ptr

/-- Every checked call of the begin variant `m` returns `ESP_OK` in `e`. -/
def checkedOk (m : BeginMode) (e : Stack) : Prop := ∀ c ∈ checkedCalls m, e.ret c = ESP_OK

/-- Whether the checked calls all succeed can be computed. -/
instance instDecidableCheckedOk (m : BeginMode) (e : Stack) : Decidable (checkedOk m e) := by
  unfold checkedOk
  infer_instance

/-- Vendor results in which `esp_netif_init` fails and every other call succeeds. -/
def Stack.netifInitFails : Stack :=
  { Stack.allOk with
    ret := fun c => if c = StackCall.esp_netif_init then ESP_FAIL else ESP_OK }

/-- Every check of the one-off bring-up in `JRC_WiFi_Scan` passes: the five calls under
`ESP_ERROR_CHECK` return `ESP_OK` and the station interface is non-null. -/
def scanBringUpOk (e : Stack) : Prop :=
  e.ret StackCall.esp_netif_init = ESP_OK ∧
  e.ret StackCall.esp_event_loop_create_default = ESP_OK ∧
  e.handle StackCall.esp_netif_create_default_wifi_sta ≠ 0 ∧
  e.ret StackCall.esp_wifi_init = ESP_OK ∧
  e.ret (StackCall.esp_wifi_set_mode wifi_mode_t.WIFI_MODE_STA) = ESP_OK ∧
  e.ret StackCall.esp_wifi_start = ESP_OK

/-- The calls of the one-off bring-up in `JRC_WiFi_Scan` when no check fails. -/
def scanBringUpLog : List StackCall :=
  [StackCall.nvs_flash_init, StackCall.esp_netif_init, StackCall.esp_event_loop_create_default,
   StackCall.esp_netif_create_default_wifi_sta, StackCall.esp_wifi_init,
   StackCall.esp_wifi_set_storage_ram, StackCall.esp_wifi_set_mode wifi_mode_t.WIFI_MODE_STA,
   StackCall.esp_wifi_set_mac wifi_interface_t.WIFI_IF_STA JRC_WIFI_STA_CUSTOM_MAC,
   StackCall.esp_wifi_start]

/-- The globals when the scan proper begins, provided the bring-up (if any) passed. -/
def scanStart (w : World) : World :=
  if w.WiFi_Status = JRC_WIFI_NOT_STARTED then
    { WiFi_Status := JRC_WIFI_STARTED, esp_netif_ptr := w.esp_netif_ptr,
      log := w.log ++ scanBringUpLog }
  else w

/-- The three scan calls of `JRC_WiFi_Scan`. -/
def scanLog : List StackCall :=
  [StackCall.esp_wifi_scan_start,
   StackCall.esp_wifi_scan_get_ap_records DEFAULT_SCAN_LIST_SIZE,
   StackCall.esp_wifi_scan_get_ap_num]

/-- The numbering of the event ids in the vendor headers of ESP-IDF (`wifi_event_t` in
esp_wifi_types.h, `ip_event_t` in esp_netif_types.h), used for concrete runs. -/
def EventIds.espIdf : EventIds :=
  { WIFI_EVENT_STA_START := 2, WIFI_EVENT_STA_CONNECTED := 4, IP_EVENT_STA_GOT_IP := 0,
    WIFI_EVENT_STA_DISCONNECTED := 5, WIFI_EVENT_AP_START := 12,
    WIFI_EVENT_AP_STADISCONNECTED := 15, WIFI_EVENT_AP_STACONNECTED := 14 }

/-- A concrete run: station begin, then the station-start event, then the got-IP event,
every vendor call succeeding. -/
def World.afterGotIp : World :=
  (runOp EventIds.espIdf (Op.event esp_event_base_t.IP_EVENT 0 0) Stack.allOk
    (runOp EventIds.espIdf (Op.event esp_event_base_t.WIFI_EVENT 2 0) Stack.allOk
      (runOp EventIds.espIdf (Op.begin BeginMode.station) Stack.allOk
        World.initial).state).state).state

/-- Vendor results of a scan that found twelve access points (channels 1 to 12) and
retrieved all of them, every call succeeding. -/
def Stack.twelveFound : Stack :=
  { Stack.allOk with
    ap_num := 12,
    ap_records := (List.range 12).map fun i => { wifi_ap_record_t.zero with primary := i + 1 } }

/-- The globals after an IP-family query: the two lookups are appended to the log. -/
def afterIpQuery (e : Stack) (w : World) : World :=
  { w with log := w.log ++
      [StackCall.esp_netif_get_handle_from_ifkey IfKey.WIFI_STA_DEF,
       StackCall.esp_netif_get_ip_info
         (e.handle (StackCall.esp_netif_get_handle_from_ifkey IfKey.WIFI_STA_DEF))] }

/-- The result of the IP-info lookup `esp_netif_get_ip_info(netif, &ip_info)` on the
handle resolved from the key `WIFI_STA_DEF`. -/
def ipLookup (e : Stack) : esp_err_t :=
  e.ret (StackCall.esp_netif_get_ip_info
    (e.handle (StackCall.esp_netif_get_handle_from_ifkey IfKey.WIFI_STA_DEF)))

/-! ## Definitions for the claims on the begin opening, the scan bring-up and events -/

/-- Whether a call belongs to the one-off station bring-up of `JRC_WiFi_Scan`
(JRC_WiFi.c, lines 513-533). -/
def isBringUpCall : StackCall → Bool
  | StackCall.nvs_flash_init => true
  | StackCall.esp_netif_init => true
  | StackCall.esp_event_loop_create_default => true
  | StackCall.esp_netif_create_default_wifi_sta => true
  | StackCall.esp_wifi_init => true
  | StackCall.esp_wifi_set_storage_ram => true
  | StackCall.esp_wifi_set_mode _ => true
  | StackCall.esp_wifi_set_mac _ _ => true
  | StackCall.esp_wifi_start => true
  | _ => false

/-- The `case` labels of `wifi_event_handler` are pairwise distinct, as C requires of the
labels of one `switch`. -/
def EventIds.distinct (ids : EventIds) : Prop :=
  [ids.WIFI_EVENT_STA_START, ids.WIFI_EVENT_STA_CONNECTED, ids.IP_EVENT_STA_GOT_IP,
   ids.WIFI_EVENT_STA_DISCONNECTED, ids.WIFI_EVENT_AP_START,
   ids.WIFI_EVENT_AP_STADISCONNECTED, ids.WIFI_EVENT_AP_STACONNECTED].Nodup

/-- One delivery of an event to the callback: the vendor results during the callback and
the arguments `event_base`, `event_id`, `event_data`. -/
structure Delivery where
  env : Stack
  event_base : esp_event_base_t
  event_id : Int
  event_data : Nat

/-- The globals after a sequence of deliveries to `wifi_event_handler`, first one first. -/
def deliver (ids : EventIds) : List Delivery → World → World
  | [], w => w
  | d :: ds, w =>
    deliver ids ds (wifi_event_handler ids d.event_base d.event_id d.event_data d.env w).state

/-- Number of `esp_wifi_connect` requests in a log. -/
def connectRequests (log : List StackCall) : Nat := log.count StackCall.esp_wifi_connect

/-- The transition table of the spec's state machine, keyed by the event id: station
start, station connected, got IP, station disconnected and access-point start give the
status of the same name, any other id keeps the current status. -/
def transitionTable (ids : EventIds) (event_id : Int) (current : JRC_WiFi_Status_t) :
    JRC_WiFi_Status_t :=
  if event_id = ids.WIFI_EVENT_STA_START then JRC_WIFI_STARTED
  else if event_id = ids.WIFI_EVENT_STA_CONNECTED then JRC_WIFI_CONNECTED
  else if event_id = ids.IP_EVENT_STA_GOT_IP then JRC_WIFI_GOT_IP
  else if event_id = ids.WIFI_EVENT_STA_DISCONNECTED then JRC_WIFI_DISCONNECTED
  else if event_id = ids.WIFI_EVENT_AP_START then JRC_WIFI_AP_STARTED
  else current

/-- The five values listed in the header comment of `JRC_WiFi_Get_Status`. -/
def listedStatus (s : JRC_WiFi_Status_t) : Prop :=
  s = JRC_WIFI_NOT_STARTED ∨ s = JRC_WIFI_CONNECTED ∨ s = JRC_WIFI_STARTED ∨
  s = JRC_WIFI_GOT_IP ∨ s = JRC_WIFI_DISCONNECTED

/-- The state after station begin and the delivery of the station-start event. -/
def World.started : World :=
  (runOp EventIds.espIdf (Op.event esp_event_base_t.WIFI_EVENT 2 0) Stack.allOk
    (runOp EventIds.espIdf (Op.begin BeginMode.station) Stack.allOk World.initial).state).state

/-- Whether the checks of the scan bring-up pass can be computed. -/
instance instDecidableScanBringUpOk (e : Stack) : Decidable (scanBringUpOk e) := by
  unfold scanBringUpOk
  infer_instance

/-- The state after access-point begin and the delivery of the access-point-start event
(id 12 of the WiFi event base), every vendor call succeeding. -/
def World.apStarted : World :=
  (runOp EventIds.espIdf (Op.event esp_event_base_t.WIFI_EVENT 12 0) Stack.allOk
    (runOp EventIds.espIdf (Op.begin BeginMode.access_point) Stack.allOk
      World.initial).state).state

/-- Three deliveries of the station-disconnected event (id 5 of the WiFi event base). -/
def threeDisconnects : List Delivery :=
  List.replicate 3
    { env := Stack.allOk, event_base := esp_event_base_t.WIFI_EVENT, event_id := 5,
      event_data := 0 }

/-- The vendor calls `wifi_event_handler` issues for an event id: `esp_wifi_connect` in
the station-start and station-disconnected cases, nothing in the others. -/
def handlerCalls (ids : EventIds) (event_id : Int) : List StackCall :=
  if event_id = ids.WIFI_EVENT_STA_START then [StackCall.esp_wifi_connect]
  else if event_id = ids.WIFI_EVENT_STA_CONNECTED then []
  else if event_id = ids.IP_EVENT_STA_GOT_IP then []
  else if event_id = ids.WIFI_EVENT_STA_DISCONNECTED then [StackCall.esp_wifi_connect]
  else []

/-- Whether `wifi_event_handler` reads the payload for an event id: in the client leave
and join cases, reached when no earlier label matches. -/
def readsPayload (ids : EventIds) (event_id : Int) : Prop :=
  event_id ≠ ids.WIFI_EVENT_STA_START ∧ event_id ≠ ids.WIFI_EVENT_STA_CONNECTED ∧
  event_id ≠ ids.IP_EVENT_STA_GOT_IP ∧ event_id ≠ ids.WIFI_EVENT_STA_DISCONNECTED ∧
  event_id ≠ ids.WIFI_EVENT_AP_START ∧
  (event_id = ids.WIFI_EVENT_AP_STADISCONNECTED ∨ event_id = ids.WIFI_EVENT_AP_STACONNECTED)

/-- Whether the payload is read can be computed. -/
instance instDecidableReadsPayload (ids : EventIds) (event_id : Int) :
    Decidable (readsPayload ids event_id) := by
  unfold readsPayload
  infer_instance

/-- The events the callback is registered for (JRC_WiFi.c, lines 107-108, 308, 371-372):
every id of the WiFi event base, and the got-IP id of the IP event base. -/
def registered (ids : EventIds) (event_base : esp_event_base_t) (event_id : Int) : Prop :=
  event_base = esp_event_base_t.WIFI_EVENT ∨
  (event_base = esp_event_base_t.IP_EVENT ∧ event_id = ids.IP_EVENT_STA_GOT_IP)

/-- The transition table as the spec words it, on events told apart by base and id:
station start, station connected, station disconnected and access-point start are events
of the WiFi base, got-IP is the event of the IP base; any other event keeps the current
status. -/
def specTransition (ids : EventIds) (event_base : esp_event_base_t) (event_id : Int)
    (current : JRC_WiFi_Status_t) : JRC_WiFi_Status_t :=
  if event_base = esp_event_base_t.WIFI_EVENT ∧ event_id = ids.WIFI_EVENT_STA_START then
    JRC_WIFI_STARTED
  else if event_base = esp_event_base_t.WIFI_EVENT ∧
      event_id = ids.WIFI_EVENT_STA_CONNECTED then
    JRC_WIFI_CONNECTED
  else if event_base = esp_event_base_t.IP_EVENT ∧ event_id = ids.IP_EVENT_STA_GOT_IP then
    JRC_WIFI_GOT_IP
  else if event_base = esp_event_base_t.WIFI_EVENT ∧
      event_id = ids.WIFI_EVENT_STA_DISCONNECTED then
    JRC_WIFI_DISCONNECTED
  else if event_base = esp_event_base_t.WIFI_EVENT ∧ event_id = ids.WIFI_EVENT_AP_START then
    JRC_WIFI_AP_STARTED
  else current

/-- The buffer `m'` is the buffer `m` after the characters of `text` and a terminator
were stored at its start: the offsets `0 .. text.length` were stored to, in order, the
cells below `text.length` hold the text, the cell at `text.length` holds the terminator
and every cell above is as in `m`. -/
def receivesText (m m' : Mem Char) (text : List Char) : Prop :=
  m'.written = m.written ++ List.range (text.length + 1) ∧
  (∀ j, j < text.length → some (m'.cell j) = text[j]?) ∧
  m'.cell text.length = NUL ∧
  ∀ j, text.length < j → m'.cell j = m.cell j

/-- Vendor results with the IP info 192.168.1.10 / 255.255.255.0 / 192.168.1.1 (address
words in memory order), every call succeeding. -/
def Stack.withIp : Stack :=
  { Stack.allOk with ip_info := { ip := 0x0A01A8C0, netmask := 0x00FFFFFF, gw := 0x0101A8C0 } }

/-! ## Theorems -/

/-- Inside the array `addAt` succeeds and replaces the one element. -/
theorem addAt_of_lt (a : List Nat) (i d : Nat) (h : i < a.length) :
    addAt a i d = some (a.set i ((a[i] + d) % 65536)) := by
  simp [addAt, List.getElem?_eq_getElem h]

/-- Pointwise effect of the `for` loop started at counter `i` on arrays of 50 elements:
the elements from `i` on are bumped by 1 (holding) and 5 (input), the others kept. -/
theorem forLoop_spec (fuel : Nat) : ∀ (i : Nat) (r : Registers),
    r.holding_reg_area.length = 50 → r.input_reg_area.length = 50 →
    i ≤ 50 → 50 < i + fuel →
    ∃ r', forLoop fuel i r = some r' ∧
      r'.holding_reg_area.length = 50 ∧ r'.input_reg_area.length = 50 ∧
      (∀ j, r'.holding_reg_area[j]? =
        if i ≤ j then (r.holding_reg_area[j]?).map (fun v => (v + 1) % 65536)
        else r.holding_reg_area[j]?) ∧
      (∀ j, r'.input_reg_area[j]? =
        if i ≤ j then (r.input_reg_area[j]?).map (fun v => (v + 5) % 65536)
        else r.input_reg_area[j]?) := by
  induction fuel with
  | zero => intro i r _ _ hi hf; omega
  | succ fuel ih =>
    intro i r hh hin hi hf
    by_cases hlt : i < 50
    · have h1 : i < r.holding_reg_area.length := by omega
      have h2 : i < r.input_reg_area.length := by omega
      obtain ⟨r', hr', hl1, hl2, hp1, hp2⟩ :=
        ih (i + 1)
          { holding_reg_area := r.holding_reg_area.set i ((r.holding_reg_area[i] + 1) % 65536),
            input_reg_area := r.input_reg_area.set i ((r.input_reg_area[i] + 5) % 65536) }
          (by simp [hh]) (by simp [hin]) (by omega) (by omega)
      refine ⟨r', ?_, hl1, hl2, ?_, ?_⟩
      · simp [forLoop, MB_REG_HOLD_CNT, hlt, forBody, addAt_of_lt _ _ _ h1,
          addAt_of_lt _ _ _ h2, hr']
      · intro j
        rw [hp1 j]
        simp only [List.getElem?_set]
        by_cases hij : i = j
        · subst hij
          simp [h1, List.getElem?_eq_getElem h1]
        · by_cases hle : i + 1 ≤ j
          · have : i ≤ j := by omega
            simp [hij, hle, this]
          · have : ¬ i ≤ j := by omega
            simp [hij, hle, this]
      · intro j
        rw [hp2 j]
        simp only [List.getElem?_set]
        by_cases hij : i = j
        · subst hij
          simp [h2, List.getElem?_eq_getElem h2]
        · by_cases hle : i + 1 ≤ j
          · have : i ≤ j := by omega
            simp [hij, hle, this]
          · have : ¬ i ≤ j := by omega
            simp [hij, hle, this]
    · have hi50 : i = 50 := by omega
      subst hi50
      refine ⟨r, by simp [forLoop, MB_REG_HOLD_CNT], hh, hin, ?_, ?_⟩
      · intro j
        by_cases hj : 50 ≤ j
        · simp [hj, List.getElem?_eq_none (by omega : r.holding_reg_area.length ≤ j)]
        · simp [hj]
      · intro j
        by_cases hj : 50 ≤ j
        · simp [hj, List.getElem?_eq_none (by omega : r.input_reg_area.length ≤ j)]
        · simp [hj]

/-- One pass of the `while (1)` body maps `+1` over the holding array and `+5` over the
input array. -/
theorem app_main_body_eq (r : Registers)
    (hh : r.holding_reg_area.length = 50) (hin : r.input_reg_area.length = 50) :
    app_main_body r = some
      { holding_reg_area := r.holding_reg_area.map (fun v => (v + 1) % 65536),
        input_reg_area := r.input_reg_area.map (fun v => (v + 5) % 65536) } := by
  obtain ⟨r', hr', _, _, hp1, hp2⟩ :=
    forLoop_spec (MB_REG_HOLD_CNT + 1) 0 r hh hin (by omega) (by simp [MB_REG_HOLD_CNT])
  rw [app_main_body, hr']
  have e1 : r'.holding_reg_area = r.holding_reg_area.map (fun v => (v + 1) % 65536) := by
    apply List.ext_getElem?
    intro j
    simp [hp1 j]
  have e2 : r'.input_reg_area = r.input_reg_area.map (fun v => (v + 5) % 65536) := by
    apply List.ext_getElem?
    intro j
    simp [hp2 j]
  cases r'
  simp_all

/-- After `k` passes every element has grown by `k` (holding) and `5 * k` (input),
modulo 65536. -/
theorem app_main_loop_eq (k : Nat) : ∀ (r : Registers),
    r.holding_reg_area.length = 50 → r.input_reg_area.length = 50 →
    (∀ v ∈ r.holding_reg_area, v < 65536) → (∀ v ∈ r.input_reg_area, v < 65536) →
    app_main_loop k r = some
      { holding_reg_area := r.holding_reg_area.map (fun v => (v + k) % 65536),
        input_reg_area := r.input_reg_area.map (fun v => (v + 5 * k) % 65536) } := by
  induction k with
  | zero =>
    intro r _ _ b1 b2
    have e1 : r.holding_reg_area.map (fun v => (v + 0) % 65536) = r.holding_reg_area := by
      conv_rhs => rw [← List.map_id r.holding_reg_area]
      apply List.map_congr_left
      intro v hv
      simpa using Nat.mod_eq_of_lt (b1 v hv)
    have e2 : r.input_reg_area.map (fun v => (v + 5 * 0) % 65536) = r.input_reg_area := by
      conv_rhs => rw [← List.map_id r.input_reg_area]
      apply List.map_congr_left
      intro v hv
      simpa using Nat.mod_eq_of_lt (b2 v hv)
    simp only [app_main_loop, e1, e2]
  | succ k ih =>
    intro r hh hin _ _
    rw [app_main_loop, app_main_body_eq r hh hin]
    simp only
    rw [ih _ (by simp [hh]) (by simp [hin])
      (by intro v hv; simp only [List.mem_map] at hv; obtain ⟨a, _, rfl⟩ := hv; omega)
      (by intro v hv; simp only [List.mem_map] at hv; obtain ⟨a, _, rfl⟩ := hv; omega)]
    simp only [List.map_map, Option.some.injEq, Registers.mk.injEq]
    constructor
    · apply List.map_congr_left
      intro v _
      simp only [Function.comp]
      omega
    · apply List.map_congr_left
      intro v _
      simp only [Function.comp]
      omega

/-- C1: for every contents of the two 50-element `uint16_t` arrays and every `k`, `k`
executions of the `app_main` loop body succeed (no index out of range), keep both arrays
at 50 elements, and leave holding register `i` at `(initial + k) mod 65536` and input
register `i` at `(initial + 5 * k) mod 65536`, for every `i < 50`. -/
theorem C1_registers_after_k_passes (r : Registers) (k : Nat)
    (hh : r.holding_reg_area.length = MB_REG_HOLD_CNT)
    (hin : r.input_reg_area.length = MB_REG_INPUT_CNT)
    (bh : ∀ v ∈ r.holding_reg_area, v < 65536)
    (bin : ∀ v ∈ r.input_reg_area, v < 65536) :
    ∃ r', app_main_loop k r = some r' ∧
      r'.holding_reg_area.length = 50 ∧ r'.input_reg_area.length = 50 ∧
      ∀ i, i < 50 →
        r'.holding_reg_area[i]? = some ((r.holding_reg_area.getD i 0 + k) % 65536) ∧
        r'.input_reg_area[i]? = some ((r.input_reg_area.getD i 0 + 5 * k) % 65536) := by
  simp only [MB_REG_HOLD_CNT, MB_REG_INPUT_CNT] at hh hin
  refine ⟨_, app_main_loop_eq k r hh hin bh bin, by simp [hh], by simp [hin], ?_⟩
  intro i hi
  have h1 : i < r.holding_reg_area.length := by omega
  have h2 : i < r.input_reg_area.length := by omega
  simp [List.getElem?_eq_getElem h1, List.getElem?_eq_getElem h2, List.getD_eq_getElem _ _ h1,
    List.getD_eq_getElem _ _ h2]

/-- C1 at the arrays as initialised (`= {0}`) after 65537 passes. -/
theorem C1_registers_after_k_passes_witness :
    ∃ r', app_main_loop 65537 Registers.initial = some r' ∧
      r'.holding_reg_area.length = 50 ∧ r'.input_reg_area.length = 50 ∧
      ∀ i, i < 50 →
        r'.holding_reg_area[i]? =
          some ((Registers.initial.holding_reg_area.getD i 0 + 65537) % 65536) ∧
        r'.input_reg_area[i]? =
          some ((Registers.initial.input_reg_area.getD i 0 + 5 * 65537) % 65536) :=
  C1_registers_after_k_passes Registers.initial 65537 (by decide) (by decide)
    (by decide) (by decide)

/-! ### `modbus_slave_init` -/

/-- Unfolding of sequencing in `Prog`. -/
theorem Prog.bind_eq {ε σ α β : Type} (x : Prog ε σ α) (f : α → Prog ε σ β) (e : ε) (s : σ) :
    (x >>= f) e s =
      match x e s with
      | Exec.done a s' => f a e s'
      | Exec.abort s' => Exec.abort s' := rfl

/-- Unfolding of `pure` in `Prog`. -/
theorem Prog.pure_eq {ε σ α : Type} (a : α) (e : ε) (s : σ) :
    (Pure.pure a : Prog ε σ α) e s = Exec.done a s := rfl

/-- Complete description of `modbus_slave_init`: whatever the construction call hands
back, the four checked calls are issued in order until one fails. -/
theorem modbus_slave_init_eq (e : MbStack) (s : MainState) :
    modbus_slave_init e s =
      if e.ret (MbCall.mbc_slave_set_descriptor holdingDescriptor) ≠ ESP_OK then
        Exec.abort { reg_area := holdingDescriptor, eth_netif := s.eth_netif,
                     log := s.log ++ stage1Log e ++
                       [MbCall.mbc_slave_set_descriptor holdingDescriptor] }
      else if e.ret (MbCall.mbc_slave_set_descriptor inputDescriptor) ≠ ESP_OK then
        Exec.abort { reg_area := inputDescriptor, eth_netif := s.eth_netif,
                     log := s.log ++ stage1Log e ++
                       [MbCall.mbc_slave_set_descriptor holdingDescriptor,
                        MbCall.mbc_slave_set_descriptor inputDescriptor] }
      else if e.ret (MbCall.mbc_slave_setup (commInfo s.eth_netif)) ≠ ESP_OK then
        Exec.abort { reg_area := inputDescriptor, eth_netif := s.eth_netif,
                     log := s.log ++ stage1Log e ++
                       [MbCall.mbc_slave_set_descriptor holdingDescriptor,
                        MbCall.mbc_slave_set_descriptor inputDescriptor,
                        MbCall.mbc_slave_setup (commInfo s.eth_netif)] }
      else if e.ret MbCall.mbc_slave_start ≠ ESP_OK then
        Exec.abort { reg_area := inputDescriptor, eth_netif := s.eth_netif,
                     log := s.log ++ stage1Log e ++
                       [MbCall.mbc_slave_set_descriptor holdingDescriptor,
                        MbCall.mbc_slave_set_descriptor inputDescriptor,
                        MbCall.mbc_slave_setup (commInfo s.eth_netif),
                        MbCall.mbc_slave_start] }
      else
        Exec.done ESP_OK
          { reg_area := inputDescriptor, eth_netif := s.eth_netif,
            log := s.log ++ stage1Log e ++
                       [MbCall.mbc_slave_set_descriptor holdingDescriptor,
                        MbCall.mbc_slave_set_descriptor inputDescriptor,
                        MbCall.mbc_slave_setup (commInfo s.eth_netif),
                        MbCall.mbc_slave_start] } := by
  by_cases h0 : e.slave_handler = 0 ∨ e.ret MbCall.mbc_slave_init_tcp ≠ ESP_OK <;>
  by_cases h1 : e.ret (MbCall.mbc_slave_set_descriptor holdingDescriptor) = ESP_OK <;>
  by_cases h2 : e.ret (MbCall.mbc_slave_set_descriptor inputDescriptor) = ESP_OK <;>
  by_cases h3 : e.ret (MbCall.mbc_slave_setup (commInfo s.eth_netif)) = ESP_OK <;>
  by_cases h4 : e.ret MbCall.mbc_slave_start = ESP_OK <;>
  simp only [holdingDescriptor, inputDescriptor, commInfo] at h1 h2 h3 <;>
  simp [modbus_slave_init, Prog.bind_eq, Prog.pure_eq, mbCall, getE, getS, modS,
    ESP_ERROR_CHECK, Prog.when, mbLogError, stage1Log, holdingDescriptor, inputDescriptor,
    commInfo, h0, h1, h2, h3, h4]

/-- C8: for every result of the responder construction call, `modbus_slave_init` goes on
to the two descriptor registrations, the setup and the start; it aborts at the first of
these four calls that fails, and returns `ESP_OK` exactly when all four succeed. -/
theorem C8_modbus_slave_init_checks (e : MbStack) (s : MainState) :
    (modbus_slave_init e s =
      if e.ret (MbCall.mbc_slave_set_descriptor holdingDescriptor) ≠ ESP_OK then
        Exec.abort { reg_area := holdingDescriptor, eth_netif := s.eth_netif,
                     log := s.log ++ stage1Log e ++
                       [MbCall.mbc_slave_set_descriptor holdingDescriptor] }
      else if e.ret (MbCall.mbc_slave_set_descriptor inputDescriptor) ≠ ESP_OK then
        Exec.abort { reg_area := inputDescriptor, eth_netif := s.eth_netif,
                     log := s.log ++ stage1Log e ++
                       [MbCall.mbc_slave_set_descriptor holdingDescriptor,
                        MbCall.mbc_slave_set_descriptor inputDescriptor] }
      else if e.ret (MbCall.mbc_slave_setup (commInfo s.eth_netif)) ≠ ESP_OK then
        Exec.abort { reg_area := inputDescriptor, eth_netif := s.eth_netif,
                     log := s.log ++ stage1Log e ++
                       [MbCall.mbc_slave_set_descriptor holdingDescriptor,
                        MbCall.mbc_slave_set_descriptor inputDescriptor,
                        MbCall.mbc_slave_setup (commInfo s.eth_netif)] }
      else if e.ret MbCall.mbc_slave_start ≠ ESP_OK then
        Exec.abort { reg_area := inputDescriptor, eth_netif := s.eth_netif,
                     log := s.log ++ stage1Log e ++
                       [MbCall.mbc_slave_set_descriptor holdingDescriptor,
                        MbCall.mbc_slave_set_descriptor inputDescriptor,
                        MbCall.mbc_slave_setup (commInfo s.eth_netif),
                        MbCall.mbc_slave_start] }
      else
        Exec.done ESP_OK
          { reg_area := inputDescriptor, eth_netif := s.eth_netif,
            log := s.log ++ stage1Log e ++
              [MbCall.mbc_slave_set_descriptor holdingDescriptor,
               MbCall.mbc_slave_set_descriptor inputDescriptor,
               MbCall.mbc_slave_setup (commInfo s.eth_netif),
               MbCall.mbc_slave_start] }) ∧
    ((∃ s', modbus_slave_init e s = Exec.done ESP_OK s') ↔
      (e.ret (MbCall.mbc_slave_set_descriptor holdingDescriptor) = ESP_OK ∧
       e.ret (MbCall.mbc_slave_set_descriptor inputDescriptor) = ESP_OK ∧
       e.ret (MbCall.mbc_slave_setup (commInfo s.eth_netif)) = ESP_OK ∧
       e.ret MbCall.mbc_slave_start = ESP_OK)) := by
  refine ⟨modbus_slave_init_eq e s, ?_⟩
  rw [modbus_slave_init_eq e s]
  by_cases h1 : e.ret (MbCall.mbc_slave_set_descriptor holdingDescriptor) = ESP_OK <;>
  by_cases h2 : e.ret (MbCall.mbc_slave_set_descriptor inputDescriptor) = ESP_OK <;>
  by_cases h3 : e.ret (MbCall.mbc_slave_setup (commInfo s.eth_netif)) = ESP_OK <;>
  by_cases h4 : e.ret MbCall.mbc_slave_start = ESP_OK <;>
  simp [h1, h2, h3, h4]

/-- C2 on the code: with every vendor call succeeding, the two descriptors registered by
`modbus_slave_init` have start offset 0 and the size field 200, twice the 100 bytes of the
arrays they point to, so each covers 100 registers of a 50-register array. -/
theorem C2_descriptor_size_is_doubled :
    ∃ s', modbus_slave_init MbStack.allOk (MainState.initial 1) = Exec.done ESP_OK s' ∧
      registeredDescriptors s'.log =
        [{ start_offset := 0, type := mb_param_type_t.MB_PARAM_HOLDING,
           address := RegAddress.holding_reg_area, size := 200 },
         { start_offset := 0, type := mb_param_type_t.MB_PARAM_INPUT,
           address := RegAddress.input_reg_area, size := 200 }] ∧
      arrayBytes RegAddress.holding_reg_area = 100 ∧
      arrayBytes RegAddress.input_reg_area = 100 ∧
      (registeredDescriptors s'.log).map registersCovered = [100, 100] :=
  ⟨_, rfl, by decide, by decide, by decide, by decide⟩

/-! ### `JRC_WiFi_Stop` and the begin variants -/

/-- Complete description of `JRC_WiFi_Stop`. -/
theorem JRC_WiFi_Stop_eq (e : Stack) (w : World) :
    JRC_WiFi_Stop e w = Exec.done ESP_OK
      { WiFi_Status := JRC_WIFI_NOT_STARTED, esp_netif_ptr := w.esp_netif_ptr,
        log := w.log ++ stopLog e } := by
  by_cases h1 : e.handle (StackCall.esp_netif_get_handle_from_ifkey IfKey.WIFI_STA_DEF) = 0 <;>
  by_cases h2 : e.handle (StackCall.esp_netif_get_handle_from_ifkey IfKey.WIFI_AP_DEF) = 0 <;>
  simp [JRC_WiFi_Stop, Prog.bind_eq, Prog.pure_eq, call, callPtr, modS, Prog.when, stopLog,
    h1, h2]

/-- Complete description of the opening of the begin variants. -/
theorem beginPrologue_eq (e : Stack) (w : World) :
    beginPrologue e w = Exec.done () (afterPrologue e w) := by
  by_cases h : w.WiFi_Status = JRC_WIFI_NOT_STARTED <;>
  simp [beginPrologue, Prog.bind_eq, Prog.pure_eq, call, JRC_WiFi_Get_Status, Prog.when,
    JRC_WiFi_Stop_eq, afterPrologue, h]

/-- A begin variant whose checked calls all succeed returns `ESP_OK`. -/
theorem begin_ok (m : BeginMode) (e : Stack) (w : World) (h : checkedOk m e) :
    JRC_WiFi_begin m e w = Exec.done ESP_OK
      { WiFi_Status := (afterPrologue e w).WiFi_Status,
        esp_netif_ptr := netifPtrAfter m e w,
        log := (afterPrologue e w).log ++ bringUpLog m } := by
  have hp : (afterPrologue e w).esp_netif_ptr = w.esp_netif_ptr := by
    unfold afterPrologue; split <;> rfl
  cases m <;>
  simp only [checkedOk, checkedCalls, List.mem_cons, List.mem_singleton, forall_eq_or_imp,
    forall_eq, List.not_mem_nil, false_implies, implies_true, and_true] at h <;>
  simp [JRC_WiFi_begin, JRC_WiFi_Begin, JRC_WiFi_Begin_AP, JRC_WiFi_Begin_STA_AP, Prog.bind_eq,
    Prog.pure_eq, beginPrologue_eq, call, callPtr, modS, ESP_ERROR_CHECK, h, bringUpLog,
    netifPtrAfter, hp]

/-- A begin variant with a failing checked call aborts. -/
theorem begin_abort (m : BeginMode) (e : Stack) (w : World) (h : ¬ checkedOk m e) :
    ∃ w', JRC_WiFi_begin m e w = Exec.abort w' ∧
      w'.WiFi_Status = (afterPrologue e w).WiFi_Status := by
  cases m <;>
  simp only [checkedOk, checkedCalls, List.mem_cons, List.mem_singleton, forall_eq_or_imp,
    forall_eq, List.not_mem_nil, false_implies, implies_true, and_true] at h <;>
  simp only [JRC_WiFi_begin, JRC_WiFi_Begin, JRC_WiFi_Begin_AP, JRC_WiFi_Begin_STA_AP, Prog.bind_eq,
    Prog.pure_eq, beginPrologue_eq, call, callPtr, modS, ESP_ERROR_CHECK] <;>
  generalize afterPrologue e w = p <;>
  split_ifs <;> simp_all

/-- The state in which `discard x` ends is the state in which `x` ends. -/
theorem discard_state {ε σ α : Type} (x : Prog ε σ α) (e : ε) (s : σ) :
    (discard x e s).state = (x e s).state := by
  unfold discard
  cases x e s <;> rfl

/-- The opening of a begin variant keeps the status or resets it to not-started. -/
theorem afterPrologue_status (e : Stack) (w : World) :
    (afterPrologue e w).WiFi_Status = w.WiFi_Status ∨
    (afterPrologue e w).WiFi_Status = JRC_WIFI_NOT_STARTED := by
  unfold afterPrologue
  split <;> simp

/-- A begin variant, returned or aborted, leaves the status as its opening left it. -/
theorem begin_status (m : BeginMode) (e : Stack) (w : World) :
    (JRC_WiFi_begin m e w).state.WiFi_Status = (afterPrologue e w).WiFi_Status := by
  by_cases h : checkedOk m e
  · rw [begin_ok m e w h]; rfl
  · obtain ⟨w', hw', hs⟩ := begin_abort m e w h
    rw [hw']; exact hs

/-- The bring-up of the scan when every check passes. -/
theorem scanBringUp_ok (e : Stack) (w : World) (h : scanBringUpOk e) :
    scanBringUp e w = Exec.done ()
      { WiFi_Status := JRC_WIFI_STARTED, esp_netif_ptr := w.esp_netif_ptr,
        log := w.log ++ scanBringUpLog } := by
  obtain ⟨h1, h2, h3, h4, h5, h6⟩ := h
  simp [scanBringUp, Prog.bind_eq, Prog.pure_eq, call, callPtr, modS, ESP_ERROR_CHECK,
    assertPtr, h1, h2, h3, h4, h5, h6, scanBringUpLog]

/-- The bring-up of the scan aborts when a check fails, the status untouched. -/
theorem scanBringUp_abort (e : Stack) (w : World) (h : ¬ scanBringUpOk e) :
    ∃ w', scanBringUp e w = Exec.abort w' ∧ w'.WiFi_Status = w.WiFi_Status := by
  simp only [scanBringUpOk] at h
  simp only [scanBringUp, Prog.bind_eq, Prog.pure_eq, call, callPtr, modS, ESP_ERROR_CHECK,
    assertPtr]
  split_ifs <;> simp_all

/-- The part of `JRC_WiFi_Scan` before the scan proper: the bring-up when not started. -/
theorem scan_when_eq (e : Stack) (w : World) :
    Prog.when (w.WiFi_Status = JRC_WIFI_NOT_STARTED) scanBringUp e w =
      if w.WiFi_Status = JRC_WIFI_NOT_STARTED then scanBringUp e w else Exec.done () w := rfl

/-- The scan when the bring-up (if needed) and the two checked scan calls succeed. -/
theorem scan_ok (b : Option (Mem wifi_ap_record_t)) (e : Stack) (w : World)
    (hup : w.WiFi_Status = JRC_WIFI_NOT_STARTED → scanBringUpOk e)
    (hrec : e.ret (StackCall.esp_wifi_scan_get_ap_records DEFAULT_SCAN_LIST_SIZE) = ESP_OK)
    (hnum : e.ret StackCall.esp_wifi_scan_get_ap_num = ESP_OK) :
    JRC_WiFi_Scan b e w = Exec.done
      (ESP_OK, b.map (scanCopyLoop (DEFAULT_SCAN_LIST_SIZE + 1) 0 (e.ap_num % 65536)
        (scanArray e DEFAULT_SCAN_LIST_SIZE)))
      { scanStart w with log := (scanStart w).log ++ scanLog } := by
  by_cases hs : w.WiFi_Status = JRC_WIFI_NOT_STARTED
  · cases b <;>
    simp [JRC_WiFi_Scan, Prog.bind_eq, Prog.pure_eq, getS, getE, scan_when_eq, hs,
      scanBringUp_ok e w (hup hs), call, ESP_ERROR_CHECK, hrec, hnum, scanStart, scanLog]
  · cases b <;>
    simp [JRC_WiFi_Scan, Prog.bind_eq, Prog.pure_eq, getS, getE, scan_when_eq, hs,
      call, ESP_ERROR_CHECK, hrec, hnum, scanStart, scanLog]

/-- The scan, returned or aborted, keeps the status or sets it to started. -/
theorem scan_status (b : Option (Mem wifi_ap_record_t)) (e : Stack) (w : World) :
    (JRC_WiFi_Scan b e w).state.WiFi_Status = w.WiFi_Status ∨
    (JRC_WiFi_Scan b e w).state.WiFi_Status = JRC_WIFI_STARTED := by
  by_cases hs : w.WiFi_Status = JRC_WIFI_NOT_STARTED
  · by_cases hb : scanBringUpOk e
    · right
      cases b <;>
      simp only [JRC_WiFi_Scan, Prog.bind_eq, Prog.pure_eq, getS, getE, scan_when_eq, hs,
        scanBringUp_ok e w hb, call, ESP_ERROR_CHECK, if_true] <;>
      split_ifs <;> simp [Exec.state, Prog.pure_eq]
    · left
      obtain ⟨w', hw', hst⟩ := scanBringUp_abort e w hb
      cases b <;>
      simp [JRC_WiFi_Scan, Prog.bind_eq, getS, scan_when_eq, hs, hw', Exec.state, hst]
  · left
    cases b <;>
    simp only [JRC_WiFi_Scan, Prog.bind_eq, Prog.pure_eq, getS, getE, scan_when_eq, hs,
      call, ESP_ERROR_CHECK, if_false] <;>
    split_ifs <;> simp [Exec.state, Prog.pure_eq]

/-- The MAC, access-point and IP-family queries leave the status as it was. -/
theorem query_status (e : Stack) (w : World) :
    (∀ b, (JRC_WiFi_AP_Info b e w).state.WiFi_Status = w.WiFi_Status) ∧
    (∀ b, (JRC_WiFi_STA_MAC_Address b e w).state.WiFi_Status = w.WiFi_Status) ∧
    (∀ f b, (ipQuery f b e w).state.WiFi_Status = w.WiFi_Status) := by
  refine ⟨?_, ?_, ?_⟩
  · intro b
    cases b <;> simp [JRC_WiFi_AP_Info, Prog.bind_eq, Prog.pure_eq, call, getE, Exec.state]
  · intro b
    cases b <;>
    simp [JRC_WiFi_STA_MAC_Address, Prog.bind_eq, Prog.pure_eq, call, getE, Exec.state]
  · intro f b
    cases b <;>
    simp only [ipQuery, Prog.bind_eq, Prog.pure_eq, call, callPtr, getE] <;>
    split_ifs <;> simp [Exec.state, Prog.pure_eq]

/-- The state in which `wifi_event_handler` ends, returned or stopped: the status of the
transition table of the event id, and the calls of that id appended to the log. The
event base plays no part. -/
theorem wifi_event_handler_state (ids : EventIds) (b : esp_event_base_t) (i : Int) (d : Nat)
    (e : Stack) (w : World) :
    (wifi_event_handler ids b i d e w).state =
      { WiFi_Status := transitionTable ids i w.WiFi_Status, esp_netif_ptr := w.esp_netif_ptr,
        log := w.log ++ handlerCalls ids i } := by
  unfold wifi_event_handler transitionTable handlerCalls readPayload
  split_ifs <;> simp [Prog.bind_eq, Prog.pure_eq, call, modS, Exec.state]

/-- The callback returns unless it reads its payload through a null pointer. -/
theorem wifi_event_handler_returns (ids : EventIds) (b : esp_event_base_t) (i : Int)
    (d : Nat) (e : Stack) (w : World) (h : readsPayload ids i → d ≠ 0) :
    ∃ w', wifi_event_handler ids b i d e w = Exec.done () w' := by
  unfold readsPayload at h
  unfold wifi_event_handler readPayload
  split_ifs <;> simp_all [Prog.bind_eq, Prog.pure_eq, call, modS]

/-- The callback stops the process when it reads its payload through a null pointer,
the globals untouched. -/
theorem wifi_event_handler_faults (ids : EventIds) (b : esp_event_base_t) (i : Int)
    (e : Stack) (w : World) (h : readsPayload ids i) :
    wifi_event_handler ids b i 0 e w = Exec.abort w := by
  unfold readsPayload at h
  obtain ⟨h1, h2, h3, h4, h5, h6⟩ := h
  unfold wifi_event_handler readPayload
  by_cases h7 : i = ids.WIFI_EVENT_AP_STADISCONNECTED
  · subst h7
    simp [h1, h2, h3, h4, h5]
  · have h8 : i = ids.WIFI_EVENT_AP_STACONNECTED := h6.resolve_left h7
    subst h8
    simp [h1, h2, h3, h4, h5, h7]

/-- The event callback keeps the status or sets it to one of five documented values. -/
theorem event_status (ids : EventIds) (b : esp_event_base_t) (i : Int) (d : Nat)
    (e : Stack) (w : World) :
    (wifi_event_handler ids b i d e w).state.WiFi_Status = w.WiFi_Status ∨
    documentedStatus (wifi_event_handler ids b i d e w).state.WiFi_Status := by
  rw [wifi_event_handler_state]
  unfold transitionTable
  split_ifs <;> simp [documentedStatus]

/-- Every use of the library keeps the status or leaves a documented value. -/
theorem runOp_status (ids : EventIds) (op : Op) (e : Stack) (w : World) :
    (runOp ids op e w).state.WiFi_Status = w.WiFi_Status ∨
    documentedStatus (runOp ids op e w).state.WiFi_Status := by
  cases op with
  | begin m =>
    simp only [runOp, discard_state, begin_status]
    rcases afterPrologue_status e w with h | h
    · exact Or.inl h
    · exact Or.inr (Or.inl h)
  | stop =>
    simp only [runOp, discard_state, JRC_WiFi_Stop_eq]
    exact Or.inr (Or.inl rfl)
  | scan b =>
    simp only [runOp, discard_state]
    rcases scan_status b e w with h | h
    · exact Or.inl h
    · exact Or.inr (Or.inr (Or.inl h))
  | ap_info b => exact Or.inl (by simp only [runOp, discard_state, (query_status e w).1])
  | sta_mac b => exact Or.inl (by simp only [runOp, discard_state, (query_status e w).2.1])
  | sta_ip b =>
    exact Or.inl (by
      simp only [runOp, discard_state, JRC_WiFi_STA_IP_Address, (query_status e w).2.2])
  | sta_subnet_mask b =>
    exact Or.inl (by
      simp only [runOp, discard_state, JRC_WiFi_STA_Subnet_Mask, (query_status e w).2.2])
  | sta_gateway b =>
    exact Or.inl (by
      simp only [runOp, discard_state, JRC_WiFi_STA_Gateway, (query_status e w).2.2])
  | get_status => exact Or.inl rfl
  | event b i d => exact event_status ids b i d e w

/-! ### The claims on stop, status and begin -/

/-- C5: for every status and all vendor results `JRC_WiFi_Stop` returns `ESP_OK`, leaves
the status not-started and calls `esp_netif_destroy` exactly on the station and
access-point handles that resolved to non-null; after any begin variant that returned,
stop leaves `JRC_WiFi_Get_Status` at not-started, and a following begin of any variant
whose checked calls succeed returns `ESP_OK` having issued only `nvs_flash_init` and its
bring-up calls, none of them a call of the stop sequence. -/
theorem C5_stop_then_begin (e : Stack) (w : World) :
    JRC_WiFi_Stop e w = Exec.done ESP_OK
      { WiFi_Status := JRC_WIFI_NOT_STARTED, esp_netif_ptr := w.esp_netif_ptr,
        log := w.log ++ stopLog e } ∧
    destroyed (stopLog e) =
      [e.handle (StackCall.esp_netif_get_handle_from_ifkey IfKey.WIFI_STA_DEF),
       e.handle (StackCall.esp_netif_get_handle_from_ifkey IfKey.WIFI_AP_DEF)].filter
        (fun h => h ≠ 0) ∧
    ∀ (m1 m2 : BeginMode) (e1 e2 e3 : Stack) (r : esp_err_t) (w1 : World),
      JRC_WiFi_begin m1 e1 w = Exec.done r w1 →
      ∃ w2, JRC_WiFi_Stop e w1 = Exec.done ESP_OK w2 ∧
        JRC_WiFi_Get_Status e2 w2 = Exec.done JRC_WIFI_NOT_STARTED w2 ∧
        (checkedOk m2 e3 →
          ∃ w3, JRC_WiFi_begin m2 e3 w2 = Exec.done ESP_OK w3 ∧
            w3.log = w2.log ++ StackCall.nvs_flash_init :: bringUpLog m2 ∧
            ∀ c ∈ StackCall.nvs_flash_init :: bringUpLog m2, isStopCall c = false) := by
  refine ⟨JRC_WiFi_Stop_eq e w, ?_, ?_⟩
  · by_cases h1 : e.handle (StackCall.esp_netif_get_handle_from_ifkey IfKey.WIFI_STA_DEF) = 0 <;>
    by_cases h2 : e.handle (StackCall.esp_netif_get_handle_from_ifkey IfKey.WIFI_AP_DEF) = 0 <;>
    simp [stopLog, destroyed, h1, h2]
  · intro m1 m2 e1 e2 e3 r w1 _
    refine ⟨_, JRC_WiFi_Stop_eq e w1, rfl, ?_⟩
    intro hc
    refine ⟨_, begin_ok m2 e3 _ hc, ?_, ?_⟩
    · simp [afterPrologue, JRC_WIFI_NOT_STARTED]
    · cases m2 <;> simp [bringUpLog, isStopCall]

/-- C5 at program start: station begin, stop, station begin again, all calls succeeding. -/
theorem C5_stop_then_begin_witness :
    ∃ w2 w3, JRC_WiFi_Stop Stack.allOk (JRC_WiFi_begin BeginMode.station Stack.allOk
        World.initial).state = Exec.done ESP_OK w2 ∧
      JRC_WiFi_Get_Status Stack.allOk w2 = Exec.done JRC_WIFI_NOT_STARTED w2 ∧
      JRC_WiFi_begin BeginMode.station Stack.allOk w2 = Exec.done ESP_OK w3 ∧
      w3.log = w2.log ++ StackCall.nvs_flash_init :: bringUpLog BeginMode.station :=
    by
  have hb : JRC_WiFi_begin BeginMode.station Stack.allOk World.initial =
      Exec.done ESP_OK (JRC_WiFi_begin BeginMode.station Stack.allOk World.initial).state :=
    rfl
  have hc : checkedOk BeginMode.station Stack.allOk := fun _ _ => rfl
  obtain ⟨w2, h1, h2, h3⟩ :=
    (C5_stop_then_begin Stack.allOk World.initial).2.2 BeginMode.station BeginMode.station
      Stack.allOk Stack.allOk Stack.allOk ESP_OK _ hb
  obtain ⟨w3, h4, h5, _⟩ := h3 hc
  exact ⟨w2, w3, h1, h2, h4, h5⟩

/-- C6: the status is not-started at program start, and in every state reachable by
begin (any mode), stop, scan, query calls and event deliveries (any base, id and payload)
`JRC_WiFi_Get_Status` returns one of the six documented values and leaves the state as
it was. -/
theorem C6_status_is_documented (ids : EventIds) (w : World) (h : Reachable ids w) :
    (∀ e, JRC_WiFi_Get_Status e World.initial =
      Exec.done JRC_WIFI_NOT_STARTED World.initial) ∧
    ∀ e, ∃ s, JRC_WiFi_Get_Status e w = Exec.done s w ∧ documentedStatus s := by
  refine ⟨fun _ => rfl, fun e => ⟨w.WiFi_Status, rfl, ?_⟩⟩
  induction h with
  | start => exact Or.inl rfl
  | step w e op _ ih =>
    rcases runOp_status ids op e w with h | h
    · rw [h]; exact ih
    · exact h

/-- C6 at a concrete run (station begin, station-start event, got-IP event). -/
theorem C6_status_is_documented_witness :
    (∀ e, JRC_WiFi_Get_Status e World.initial =
      Exec.done JRC_WIFI_NOT_STARTED World.initial) ∧
    ∀ e, ∃ s, JRC_WiFi_Get_Status e World.afterGotIp = Exec.done s World.afterGotIp ∧
      documentedStatus s :=
  C6_status_is_documented EventIds.espIdf World.afterGotIp
    (Reachable.step _ _ _ (Reachable.step _ _ _ (Reachable.step _ _ _ Reachable.start)))

/-- C7 as stated fails: with `esp_netif_init` returning `ESP_FAIL` (and every other call
succeeding) each begin variant issues that call and still returns `ESP_OK`. -/
theorem C7_unchecked_failure_returns_ok :
    Stack.netifInitFails.ret StackCall.esp_netif_init ≠ ESP_OK ∧
    (∃ w', JRC_WiFi_Begin Stack.netifInitFails World.initial = Exec.done ESP_OK w' ∧
      StackCall.esp_netif_init ∈ w'.log) ∧
    (∃ w', JRC_WiFi_Begin_AP Stack.netifInitFails World.initial = Exec.done ESP_OK w' ∧
      StackCall.esp_netif_init ∈ w'.log) ∧
    (∃ w', JRC_WiFi_Begin_STA_AP Stack.netifInitFails World.initial = Exec.done ESP_OK w' ∧
      StackCall.esp_netif_init ∈ w'.log) :=
  ⟨by decide, ⟨_, rfl, by decide⟩, ⟨_, rfl, by decide⟩, ⟨_, rfl, by decide⟩⟩

/-- C7 amended: a begin variant returns `ESP_OK` exactly when all its calls under
`ESP_ERROR_CHECK` (listed by `checkedCalls`) return `ESP_OK`, and aborts exactly when one
of them returns an error; the results of all its other calls play no part. -/
theorem C7_begin_aborts_iff_checked_call_fails (m : BeginMode) (e : Stack) (w : World) :
    (checkedOk m e ↔ ∃ w', JRC_WiFi_begin m e w = Exec.done ESP_OK w') ∧
    (¬ checkedOk m e ↔ ∃ w', JRC_WiFi_begin m e w = Exec.abort w') := by
  by_cases h : checkedOk m e
  · have := begin_ok m e w h
    simp [h, this]
  · obtain ⟨w', hw', _⟩ := begin_abort m e w h
    simp [h, hw']

/-! ### Stores into caller memory -/

/-- Offsets stored to by `storeList`: `off`, `off + 1`, ... one per element. -/
theorem Mem.storeList_written {α : Type} (vs : List α) : ∀ (m : Mem α) (off : Nat),
    (m.storeList off vs).written = m.written ++ List.range' off vs.length := by
  induction vs with
  | nil => intro m off; simp [Mem.storeList]
  | cons v vs ih =>
    intro m off
    simp [Mem.storeList, ih, Mem.store, List.range'_succ]

/-- Content after `storeList`: the stored element inside the range, the old cell outside. -/
theorem Mem.storeList_cell {α : Type} (vs : List α) : ∀ (m : Mem α) (off j : Nat),
    (m.storeList off vs).cell j =
      if off ≤ j then (vs[j - off]?).getD (m.cell j) else m.cell j := by
  induction vs with
  | nil => intro m off j; simp [Mem.storeList]
  | cons v vs ih =>
    intro m off j
    simp only [Mem.storeList, ih, Mem.store]
    by_cases h1 : off + 1 ≤ j
    · have h2 : off ≤ j := by omega
      have h3 : j ≠ off := by omega
      have h4 : j - off = (j - (off + 1)) + 1 := by omega
      simp [h1, h2, h3, h4]
    · by_cases h2 : off ≤ j
      · have h3 : j = off := by omega
        subst h3
        simp
      · have h3 : j ≠ off := by omega
        simp [h1, h2, h3]

/-- The copy loop of the scan from counter `i` on: it stores at offsets `i` up to
`min ap_count 10 - 1` the array elements of the same index, and nothing else. -/
theorem scanCopyLoop_spec (n : Nat) (a : List wifi_ap_record_t) (fuel : Nat) :
    ∀ (i : Nat) (dst : Mem wifi_ap_record_t), 10 < i + fuel → i ≤ min n 10 →
    (scanCopyLoop fuel i n a dst).written = dst.written ++ List.range' i (min n 10 - i) ∧
    ∀ j, (scanCopyLoop fuel i n a dst).cell j =
      if i ≤ j ∧ j < min n 10 then a.getD j wifi_ap_record_t.zero else dst.cell j := by
  induction fuel with
  | zero => intro i dst h1 h2; omega
  | succ fuel ih =>
    intro i dst h1 h2
    by_cases hc : i < DEFAULT_SCAN_LIST_SIZE ∧ i < n
    · have hlt : i < min n 10 := by simp only [DEFAULT_SCAN_LIST_SIZE] at hc; omega
      obtain ⟨hw, hcell⟩ := ih (i + 1) (dst.store i (a.getD i wifi_ap_record_t.zero))
        (by omega) (by omega)
      simp only [scanCopyLoop, hc, and_self, if_true]
      constructor
      · rw [hw]
        have : min n 10 - i = (min n 10 - (i + 1)) + 1 := by omega
        rw [this, List.range'_succ]
        simp [Mem.store]
      · intro j
        rw [hcell j]
        by_cases hj : j = i
        · subst hj
          have h3 : ¬ (j + 1 ≤ j ∧ j < min n 10) := by omega
          have h4 : j ≤ j ∧ j < min n 10 := ⟨le_refl j, hlt⟩
          rw [if_neg h3, if_pos h4]
          simp [Mem.store]
        · by_cases h3 : i + 1 ≤ j ∧ j < min n 10
          · have h4 : i ≤ j ∧ j < min n 10 := ⟨by omega, h3.2⟩
            rw [if_pos h3, if_pos h4]
          · have h4 : ¬ (i ≤ j ∧ j < min n 10) := by omega
            rw [if_neg h3, if_neg h4]
            simp [Mem.store, hj]
    · have heq : i = min n 10 := by simp only [DEFAULT_SCAN_LIST_SIZE] at hc; omega
      simp only [scanCopyLoop, hc, if_false]
      constructor
      · simp [← heq]
      · intro j
        have : ¬ (i ≤ j ∧ j < min n 10) := by omega
        rw [if_neg this]

/-- Slot `j` of the local scan array: the `j`-th retrieved record, or a zeroed record. -/
theorem scanArray_getElem? (e : Stack) (j : Nat) (hj : j < 10) :
    (scanArray e DEFAULT_SCAN_LIST_SIZE)[j]? =
      some (e.ap_records.getD j wifi_ap_record_t.zero) := by
  simp [scanArray, DEFAULT_SCAN_LIST_SIZE, hj, List.getElem?_range hj]

/-- C3: when the stack reports `n` access points (`n ≤ 65535`) and the checked calls of the
scan succeed, `JRC_WiFi_Scan` with a non-null buffer returns `ESP_OK` and stores exactly
at the offsets `0 .. min n 10 - 1`, each time the element of the same index of the local
array of retrieved records (the retrieved record itself where the stack retrieved one);
it stores nothing at offset 10 or above and leaves every other entry as it was. -/
theorem C3_scan_copies_at_most_ten (e : Stack) (w : World) (dst : Mem wifi_ap_record_t)
    (hn : e.ap_num ≤ 65535)
    (hup : w.WiFi_Status = JRC_WIFI_NOT_STARTED → scanBringUpOk e)
    (hrec : e.ret (StackCall.esp_wifi_scan_get_ap_records DEFAULT_SCAN_LIST_SIZE) = ESP_OK)
    (hnum : e.ret StackCall.esp_wifi_scan_get_ap_num = ESP_OK) :
    ∃ dst' w', JRC_WiFi_Scan (some dst) e w = Exec.done (ESP_OK, some dst') w' ∧
      dst'.written = dst.written ++ List.range (min e.ap_num DEFAULT_SCAN_LIST_SIZE) ∧
      (∀ j, j < min e.ap_num DEFAULT_SCAN_LIST_SIZE →
        some (dst'.cell j) = (scanArray e DEFAULT_SCAN_LIST_SIZE)[j]? ∧
        (j < e.ap_records.length → some (dst'.cell j) = e.ap_records[j]?)) ∧
      (∀ j, min e.ap_num DEFAULT_SCAN_LIST_SIZE ≤ j → dst'.cell j = dst.cell j) ∧
      (∀ j, DEFAULT_SCAN_LIST_SIZE ≤ j → j ∉ List.range (min e.ap_num DEFAULT_SCAN_LIST_SIZE)) := by
  have hmod : e.ap_num % 65536 = e.ap_num := Nat.mod_eq_of_lt (by omega)
  obtain ⟨hw, hcell⟩ := scanCopyLoop_spec e.ap_num (scanArray e DEFAULT_SCAN_LIST_SIZE)
    (DEFAULT_SCAN_LIST_SIZE + 1) 0 dst (by simp [DEFAULT_SCAN_LIST_SIZE]) (by omega)
  refine ⟨_, _, scan_ok (some dst) e w hup hrec hnum, ?_, ?_, ?_, ?_⟩
  · rw [hmod, hw]
    simp [DEFAULT_SCAN_LIST_SIZE, List.range_eq_range']
  · intro j hj
    simp only [DEFAULT_SCAN_LIST_SIZE] at hj
    have hj10 : j < 10 := by omega
    have hval : (scanCopyLoop (DEFAULT_SCAN_LIST_SIZE + 1) 0 (e.ap_num % 65536)
        (scanArray e DEFAULT_SCAN_LIST_SIZE) dst).cell j =
        e.ap_records.getD j wifi_ap_record_t.zero := by
      rw [hmod, hcell j]
      have hs := scanArray_getElem? e j hj10
      simp only [hj, Nat.zero_le, and_self, if_true, List.getD_eq_getElem?_getD, hs,
        Option.getD_some]
    constructor
    · rw [hval, scanArray_getElem? e j hj10]
    · intro hlen
      rw [hval, List.getD_eq_getElem _ _ hlen, List.getElem?_eq_getElem hlen]
  · intro j hj
    simp only [DEFAULT_SCAN_LIST_SIZE] at hj
    have : ¬ (0 ≤ j ∧ j < min e.ap_num 10) := by omega
    simp only [hmod, hcell j, this, if_false]
  · intro j hj
    simp only [DEFAULT_SCAN_LIST_SIZE] at hj
    simp only [DEFAULT_SCAN_LIST_SIZE, List.mem_range]
    omega

/-- C3 at program start with twelve access points found: ten entries are stored. -/
theorem C3_scan_copies_at_most_ten_witness :
    ∃ dst' w', JRC_WiFi_Scan (some (Mem.fresh wifi_ap_record_t.zero)) Stack.twelveFound
        World.initial = Exec.done (ESP_OK, some dst') w' ∧
      dst'.written = (Mem.fresh wifi_ap_record_t.zero).written ++
        List.range (min Stack.twelveFound.ap_num DEFAULT_SCAN_LIST_SIZE) ∧
      (∀ j, j < min Stack.twelveFound.ap_num DEFAULT_SCAN_LIST_SIZE →
        some (dst'.cell j) = (scanArray Stack.twelveFound DEFAULT_SCAN_LIST_SIZE)[j]? ∧
        (j < Stack.twelveFound.ap_records.length →
          some (dst'.cell j) = Stack.twelveFound.ap_records[j]?)) ∧
      (∀ j, min Stack.twelveFound.ap_num DEFAULT_SCAN_LIST_SIZE ≤ j →
        dst'.cell j = (Mem.fresh wifi_ap_record_t.zero).cell j) ∧
      (∀ j, DEFAULT_SCAN_LIST_SIZE ≤ j →
        j ∉ List.range (min Stack.twelveFound.ap_num DEFAULT_SCAN_LIST_SIZE)) :=
  C3_scan_copies_at_most_ten Stack.twelveFound World.initial (Mem.fresh wifi_ap_record_t.zero)
    (by decide) (fun _ => ⟨rfl, rfl, by decide, rfl, rfl, rfl⟩) rfl rfl

/-! ### The text queries -/

/-- The format of the MAC text always expands to 18 characters, the `%c` included. -/
theorem macFormat_length (m : List Nat) (c : Char) : (macFormat m c).length = 18 := by
  simp [macFormat, fmt_02x]

/-- C4 on the code: for every station MAC and every buffer, `JRC_WiFi_STA_MAC_Address`
stores 19 bytes, at the offsets 0 to 18: the 17 characters of the text, the null
character passed to `%c` at offset 17 and the terminator of `sprintf` at offset 18, which
lies outside a buffer of `MAC_ADDR_LENGTH = 18` bytes. -/
theorem C4_mac_text_stores_19_bytes (e : Stack) (w : World) (m : Mem Char) :
    ∃ m' w', JRC_WiFi_STA_MAC_Address (some m) e w = Exec.done (ESP_OK, some m') w' ∧
      m'.written = m.written ++ List.range 19 ∧
      m'.cell 17 = NUL ∧ m'.cell 18 = NUL ∧
      MAC_ADDR_LENGTH ∈ m'.written ∧ MAC_ADDR_LENGTH = 18 := by
  have hlen := macFormat_length (macBytes e) NUL
  have hw : (sprintf m (macFormat (macBytes e) NUL)).written = m.written ++ List.range 19 := by
    simp [sprintf, Mem.storeList_written, hlen, List.range_eq_range']
  refine ⟨sprintf m (macFormat (macBytes e) NUL),
    { w with log := w.log ++ [StackCall.esp_wifi_get_mac wifi_interface_t.WIFI_IF_STA] },
    ?_, hw, ?_, ?_, ?_, rfl⟩
  · simp [JRC_WiFi_STA_MAC_Address, Prog.bind_eq, Prog.pure_eq, call, getE]
  · simp [sprintf, Mem.storeList_cell, macFormat, fmt_02x]
  · have : (macFormat (macBytes e) NUL ++ [NUL])[18]? = some NUL := by
      rw [List.getElem?_append_right (by omega)]
      simp [hlen]
    simp [sprintf, Mem.storeList_cell, this]
  · rw [hw]
    simp [MAC_ADDR_LENGTH]

/-- A byte prints as one to three decimal digits. -/
theorem decimalOfByte_length (b : Nat) :
    1 ≤ (decimalOfByte b).length ∧ (decimalOfByte b).length ≤ 3 := by
  unfold decimalOfByte
  split_ifs <;> simp

/-- The dotted-decimal text of any address word has 7 to 15 characters. -/
theorem dottedDecimal_length (addr : Nat) :
    7 ≤ (dottedDecimal addr).length ∧ (dottedDecimal addr).length ≤ 15 := by
  have h0 := decimalOfByte_length (octet addr 0)
  have h1 := decimalOfByte_length (octet addr 1)
  have h2 := decimalOfByte_length (octet addr 2)
  have h3 := decimalOfByte_length (octet addr 3)
  simp only [dottedDecimal, List.length_append, List.length_singleton]
  omega

/-- With `buflen = IP_ADDR_LENGTH` the text and its terminator are stored in full. -/
theorem esp_ip4addr_ntoa_full (addr : Nat) (m : Mem Char) :
    esp_ip4addr_ntoa addr m IP_ADDR_LENGTH = m.storeList 0 (dottedDecimal addr ++ [NUL]) := by
  have h := (dottedDecimal_length addr).2
  unfold esp_ip4addr_ntoa
  rw [List.take_of_length_le]
  simp only [List.length_append, List.length_singleton, IP_ADDR_LENGTH]
  omega

/-- Complete description of the common body of the IP-family queries. -/
theorem ipQuery_eq (f : esp_netif_ip_info_t → Nat) (out : Option (Mem Char)) (e : Stack)
    (w : World) :
    ipQuery f out e w = Exec.done
      (ipLookup e,
       if ipLookup e = ESP_OK then
         out.map fun m => m.storeList 0 (dottedDecimal (f e.ip_info) ++ [NUL])
       else out)
      (afterIpQuery e w) := by
  by_cases h : ipLookup e = ESP_OK <;>
  cases out <;>
  simp only [ipLookup] at h <;>
  simp [ipQuery, Prog.bind_eq, Prog.pure_eq, call, callPtr, getE, h, ipLookup, afterIpQuery,
    esp_ip4addr_ntoa_full]

/-- Storing a text and its terminator at the start of a buffer gives a buffer that has
received the text. -/
theorem Mem.storeList_receivesText (m : Mem Char) (text : List Char) :
    receivesText m (m.storeList 0 (text ++ [NUL])) text := by
  refine ⟨?_, ?_, ?_, ?_⟩
  · simp [Mem.storeList_written, List.range_eq_range']
  · intro j hj
    simp [Mem.storeList_cell, List.getElem?_append_left hj, List.getElem?_eq_getElem hj]
  · simp [Mem.storeList_cell]
  · intro j hj
    have : (text ++ [NUL])[j]? = none := by
      apply List.getElem?_eq_none
      simp only [List.length_append, List.length_singleton]
      omega
    simp [Mem.storeList_cell, this]

/-- What an IP-family query hands back, for every outcome of the lookup and every
buffer. -/
theorem ipQuery_result (f : esp_netif_ip_info_t → Nat) (out : Option (Mem Char))
    (e : Stack) (w : World) :
    ∃ out', ipQuery f out e w = Exec.done (ipLookup e, out') (afterIpQuery e w) ∧
      (ipLookup e ≠ ESP_OK → out' = out) ∧
      (out = none → out' = none) ∧
      (ipLookup e = ESP_OK → ∀ m, out = some m →
        ∃ m', out' = some m' ∧ receivesText m m' (dottedDecimal (f e.ip_info))) := by
  refine ⟨_, ipQuery_eq f out e w, ?_, ?_, ?_⟩
  · intro h
    rw [if_neg h]
  · rintro rfl
    split_ifs <;> rfl
  · intro h m hm
    subst hm
    refine ⟨m.storeList 0 (dottedDecimal (f e.ip_info) ++ [NUL]), ?_,
      Mem.storeList_receivesText m _⟩
    rw [if_pos h]
    rfl

/-- C9: each of `JRC_WiFi_STA_IP_Address`, `JRC_WiFi_STA_Subnet_Mask` and
`JRC_WiFi_STA_Gateway` returns the result of the IP-info lookup; when the lookup fails the
caller's buffer is handed back as it was; with a null buffer there is no caller memory in
the result; when the lookup succeeds a non-null buffer has received the dotted-decimal
text of the `ip`, `netmask` and `gw` field respectively: the offsets from 0 to the length
of the text were stored to, the cells hold the characters of the text and then the
terminator, every other cell is as before. The text of 192.168.1.10 (address word
`0x0A01A8C0`) is spelled out. -/
theorem C9_ip_queries (out : Option (Mem Char)) (e : Stack) (w : World) :
    (∃ out', JRC_WiFi_STA_IP_Address out e w =
        Exec.done (ipLookup e, out') (afterIpQuery e w) ∧
      (ipLookup e ≠ ESP_OK → out' = out) ∧
      (out = none → out' = none) ∧
      (ipLookup e = ESP_OK → ∀ m, out = some m →
        ∃ m', out' = some m' ∧ receivesText m m' (dottedDecimal e.ip_info.ip))) ∧
    (∃ out', JRC_WiFi_STA_Subnet_Mask out e w =
        Exec.done (ipLookup e, out') (afterIpQuery e w) ∧
      (ipLookup e ≠ ESP_OK → out' = out) ∧
      (out = none → out' = none) ∧
      (ipLookup e = ESP_OK → ∀ m, out = some m →
        ∃ m', out' = some m' ∧ receivesText m m' (dottedDecimal e.ip_info.netmask))) ∧
    (∃ out', JRC_WiFi_STA_Gateway out e w =
        Exec.done (ipLookup e, out') (afterIpQuery e w) ∧
      (ipLookup e ≠ ESP_OK → out' = out) ∧
      (out = none → out' = none) ∧
      (ipLookup e = ESP_OK → ∀ m, out = some m →
        ∃ m', out' = some m' ∧ receivesText m m' (dottedDecimal e.ip_info.gw))) ∧
    dottedDecimal 0x0A01A8C0 =
      ['1', '9', '2', '.', '1', '6', '8', '.', '1', '.', '1', '0'] :=
  ⟨ipQuery_result _ out e w, ipQuery_result _ out e w, ipQuery_result _ out e w, by decide⟩

/-- C9 for a lookup that succeeds with the IP info 192.168.1.10 / 255.255.255.0 /
192.168.1.1 and a fresh buffer: the three buffers have received the three texts. -/
theorem C9_ip_queries_witness :
    (∃ m', (JRC_WiFi_STA_IP_Address (some (Mem.fresh 'x')) Stack.withIp World.initial) =
        Exec.done (ESP_OK, some m') (afterIpQuery Stack.withIp World.initial) ∧
      receivesText (Mem.fresh 'x') m'
        ['1', '9', '2', '.', '1', '6', '8', '.', '1', '.', '1', '0']) ∧
    (∃ m', (JRC_WiFi_STA_Subnet_Mask (some (Mem.fresh 'x')) Stack.withIp World.initial) =
        Exec.done (ESP_OK, some m') (afterIpQuery Stack.withIp World.initial) ∧
      receivesText (Mem.fresh 'x') m'
        ['2', '5', '5', '.', '2', '5', '5', '.', '2', '5', '5', '.', '0']) ∧
    (∃ m', (JRC_WiFi_STA_Gateway (some (Mem.fresh 'x')) Stack.withIp World.initial) =
        Exec.done (ESP_OK, some m') (afterIpQuery Stack.withIp World.initial) ∧
      receivesText (Mem.fresh 'x') m'
        ['1', '9', '2', '.', '1', '6', '8', '.', '1', '.', '1']) := by
  obtain ⟨⟨o1, h1, _, _, r1⟩, ⟨o2, h2, _, _, r2⟩, ⟨o3, h3, _, _, r3⟩, _⟩ :=
    C9_ip_queries (some (Mem.fresh 'x')) Stack.withIp World.initial
  obtain ⟨m1, e1, t1⟩ := r1 rfl _ rfl
  obtain ⟨m2, e2, t2⟩ := r2 rfl _ rfl
  obtain ⟨m3, e3, t3⟩ := r3 rfl _ rfl
  subst e1 e2 e3
  exact ⟨⟨m1, h1, t1⟩, ⟨m2, h2, t2⟩, ⟨m3, h3, t3⟩⟩

/-- C10: for every IP info (address words of any value, 0.0.0.0 and 255.255.255.255
included) the text with its terminator takes at most `IP_ADDR_LENGTH = 16` bytes, and each
of the three queries stores into a non-null buffer only at offsets below 16. -/
theorem C10_ip_text_fits_16_bytes (e : Stack) (w : World) (m : Mem Char) :
    (∀ addr, (dottedDecimal addr ++ [NUL]).length ≤ IP_ADDR_LENGTH) ∧
    dottedDecimal 0 = ['0', '.', '0', '.', '0', '.', '0'] ∧
    dottedDecimal 0xFFFFFFFF =
      ['2', '5', '5', '.', '2', '5', '5', '.', '2', '5', '5', '.', '2', '5', '5'] ∧
    ∀ q ∈ [JRC_WiFi_STA_IP_Address, JRC_WiFi_STA_Subnet_Mask, JRC_WiFi_STA_Gateway],
      ∃ r m' w' n, q (some m) e w = Exec.done (r, some m') w' ∧
        n ≤ IP_ADDR_LENGTH ∧ m'.written = m.written ++ List.range n := by
  have hlen : ∀ addr, (dottedDecimal addr ++ [NUL]).length ≤ IP_ADDR_LENGTH := by
    intro addr
    have h := (dottedDecimal_length addr).2
    simp only [List.length_append, List.length_singleton, IP_ADDR_LENGTH]
    omega
  have key : ∀ f : esp_netif_ip_info_t → Nat,
      ∃ r m' w' n, ipQuery f (some m) e w = Exec.done (r, some m') w' ∧
        n ≤ IP_ADDR_LENGTH ∧ m'.written = m.written ++ List.range n := by
    intro f
    rw [ipQuery_eq]
    by_cases h : ipLookup e = ESP_OK
    · refine ⟨ipLookup e, m.storeList 0 (dottedDecimal (f e.ip_info) ++ [NUL]),
        afterIpQuery e w, (dottedDecimal (f e.ip_info) ++ [NUL]).length, ?_, hlen _, ?_⟩
      · simp only [h, if_true, Option.map_some']
      · simp only [Mem.storeList_written, List.range_eq_range']
    · refine ⟨ipLookup e, m, afterIpQuery e w, 0, ?_, Nat.zero_le _, ?_⟩
      · simp only [h, if_false]
      · simp
  refine ⟨hlen, by decide, by decide, ?_⟩
  intro q hq
  simp only [List.mem_cons, List.mem_singleton, List.not_mem_nil, or_false] at hq
  rcases hq with rfl | rfl | rfl <;> exact key _

/-! ### The opening of begin and the bring-up of the scan -/

/-- The calls a begin variant issues after its opening are an initial part of its
bring-up sequence, at least six calls long. -/
theorem begin_log (m : BeginMode) (e : Stack) (w : World) :
    ∃ k, 6 ≤ k ∧
      (JRC_WiFi_begin m e w).state.log = (afterPrologue e w).log ++ (bringUpLog m).take k := by
  cases m
  · simp only [JRC_WiFi_begin, JRC_WiFi_Begin, Prog.bind_eq, Prog.pure_eq, beginPrologue_eq,
      call, callPtr, modS, ESP_ERROR_CHECK]
    generalize afterPrologue e w = p
    by_cases h1 : e.ret (StackCall.esp_wifi_set_mode wifi_mode_t.WIFI_MODE_STA) = ESP_OK
    · by_cases h2 : e.ret (StackCall.esp_wifi_set_config wifi_interface_t.WIFI_IF_STA
          (wifi_config_t.sta wifi_sta_cfg)) = ESP_OK
      · by_cases h3 : e.ret StackCall.esp_wifi_start = ESP_OK
        · exact ⟨11, by decide, by simp [h1, h2, h3, Exec.state, bringUpLog]⟩
        · exact ⟨11, by decide, by simp [h1, h2, h3, Exec.state, bringUpLog]⟩
      · exact ⟨9, by decide, by simp [h1, h2, Exec.state, bringUpLog]⟩
    · exact ⟨8, by decide, by simp [h1, Exec.state, bringUpLog]⟩
  · simp only [JRC_WiFi_begin, JRC_WiFi_Begin_AP, Prog.bind_eq, Prog.pure_eq, beginPrologue_eq,
      call, callPtr, modS, ESP_ERROR_CHECK]
    generalize afterPrologue e w = p
    by_cases h0 : e.ret (StackCall.esp_event_handler_register esp_event_base_t.WIFI_EVENT
        EventSel.ESP_EVENT_ANY_ID) = ESP_OK
    · by_cases h1 : e.ret (StackCall.esp_wifi_set_mode wifi_mode_t.WIFI_MODE_AP) = ESP_OK
      · by_cases h2 : e.ret (StackCall.esp_wifi_set_config wifi_interface_t.WIFI_IF_AP
            (wifi_config_t.ap (wifi_ap_cfg 1))) = ESP_OK
        · by_cases h3 : e.ret StackCall.esp_wifi_start = ESP_OK
          · exact ⟨10, by decide, by simp [h0, h1, h2, h3, Exec.state, bringUpLog]⟩
          · exact ⟨10, by decide, by simp [h0, h1, h2, h3, Exec.state, bringUpLog]⟩
        · exact ⟨8, by decide, by simp [h0, h1, h2, Exec.state, bringUpLog]⟩
      · exact ⟨7, by decide, by simp [h0, h1, Exec.state, bringUpLog]⟩
    · exact ⟨6, by decide, by simp [h0, Exec.state, bringUpLog]⟩
  · simp only [JRC_WiFi_begin, JRC_WiFi_Begin_STA_AP, Prog.bind_eq, Prog.pure_eq,
      beginPrologue_eq, call, callPtr, modS, ESP_ERROR_CHECK]
    generalize afterPrologue e w = p
    by_cases h1 : e.ret (StackCall.esp_wifi_set_mode wifi_mode_t.WIFI_MODE_APSTA) = ESP_OK
    · by_cases h2 : e.ret (StackCall.esp_wifi_set_config wifi_interface_t.WIFI_IF_STA
          (wifi_config_t.sta wifi_sta_cfg)) = ESP_OK
      · by_cases h3 : e.ret (StackCall.esp_wifi_set_config wifi_interface_t.WIFI_IF_AP
            (wifi_config_t.ap (wifi_ap_cfg 0))) = ESP_OK
        · by_cases h4 : e.ret StackCall.esp_wifi_start = ESP_OK
          · exact ⟨14, by decide, by simp [h1, h2, h3, h4, Exec.state, bringUpLog]⟩
          · exact ⟨14, by decide, by simp [h1, h2, h3, h4, Exec.state, bringUpLog]⟩
        · exact ⟨12, by decide, by simp [h1, h2, h3, Exec.state, bringUpLog]⟩
      · exact ⟨10, by decide, by simp [h1, h2, Exec.state, bringUpLog]⟩
    · exact ⟨7, by decide, by simp [h1, Exec.state, bringUpLog]⟩

/-- C11: each begin variant first calls `nvs_flash_init`, then runs the whole of
`JRC_WiFi_Stop` exactly when the status on entry is not not-started, and only then issues
its re-initialisation calls (an initial part of its bring-up sequence, starting with
`esp_netif_init`); when re-initialisation starts, and still when begin ends, the status
is not-started. -/
theorem C11_begin_stops_first (m : BeginMode) (e : Stack) (w : World) :
    beginPrologue e w = Exec.done () (afterPrologue e w) ∧
    (afterPrologue e w).WiFi_Status = JRC_WIFI_NOT_STARTED ∧
    (afterPrologue e w).log = w.log ++ StackCall.nvs_flash_init ::
      (if w.WiFi_Status ≠ JRC_WIFI_NOT_STARTED then stopLog e else []) ∧
    (∃ k, 6 ≤ k ∧ (JRC_WiFi_begin m e w).state.log = w.log ++ StackCall.nvs_flash_init ::
      ((if w.WiFi_Status ≠ JRC_WIFI_NOT_STARTED then stopLog e else []) ++
        (bringUpLog m).take k)) ∧
    (JRC_WiFi_begin m e w).state.WiFi_Status = JRC_WIFI_NOT_STARTED ∧
    ((∃ c ∈ (JRC_WiFi_begin m e w).state.log.drop w.log.length, isStopCall c = true) ↔
      w.WiFi_Status ≠ JRC_WIFI_NOT_STARTED) ∧
    (bringUpLog m).head? = some StackCall.esp_netif_init := by
  have hst : (afterPrologue e w).WiFi_Status = JRC_WIFI_NOT_STARTED := by
    by_cases h : w.WiFi_Status = JRC_WIFI_NOT_STARTED <;> simp [afterPrologue, h]
  have hlog : (afterPrologue e w).log = w.log ++ StackCall.nvs_flash_init ::
      (if w.WiFi_Status ≠ JRC_WIFI_NOT_STARTED then stopLog e else []) := by
    by_cases h : w.WiFi_Status = JRC_WIFI_NOT_STARTED <;> simp [afterPrologue, h]
  obtain ⟨k, hk, hfin⟩ := begin_log m e w
  have hfin' : (JRC_WiFi_begin m e w).state.log = w.log ++ StackCall.nvs_flash_init ::
      ((if w.WiFi_Status ≠ JRC_WIFI_NOT_STARTED then stopLog e else []) ++
        (bringUpLog m).take k) := by
    rw [hfin, hlog]; simp
  have hall : ∀ c ∈ bringUpLog m, isStopCall c = false := by
    cases m <;> simp [bringUpLog, isStopCall]
  have hnone : ∀ c ∈ (bringUpLog m).take k, isStopCall c = false :=
    fun c hc => hall c (List.mem_of_mem_take hc)
  refine ⟨beginPrologue_eq e w, hst, hlog, ⟨k, hk, hfin'⟩, ?_, ?_, by cases m <;> rfl⟩
  · rw [begin_status, hst]
  · rw [hfin', List.drop_left]
    by_cases h : w.WiFi_Status = JRC_WIFI_NOT_STARTED
    · simp only [h, ne_eq, not_true_eq_false, if_false, List.nil_append, List.mem_cons,
        iff_false, not_exists, not_and]
      intro c hc
      rcases hc with rfl | hc
      · simp [isStopCall]
      · simp [hnone c hc]
    · simp only [h, ne_eq, not_false_eq_true, if_true, iff_true]
      exact ⟨StackCall.esp_wifi_disconnect, by simp [stopLog], rfl⟩

/-- The bring-up of the scan aborts at the first failing check: the calls issued are an
initial part of the bring-up sequence and the status is untouched. -/
theorem scanBringUp_abort_log (e : Stack) (w : World) (h : ¬ scanBringUpOk e) :
    ∃ k w', 2 ≤ k ∧ scanBringUp e w = Exec.abort w' ∧
      w'.log = w.log ++ scanBringUpLog.take k ∧ w'.WiFi_Status = w.WiFi_Status := by
  simp only [scanBringUp, Prog.bind_eq, Prog.pure_eq, call, callPtr, modS, ESP_ERROR_CHECK,
    assertPtr]
  by_cases h1 : e.ret StackCall.esp_netif_init = ESP_OK
  · by_cases h2 : e.ret StackCall.esp_event_loop_create_default = ESP_OK
    · by_cases h3 : e.handle StackCall.esp_netif_create_default_wifi_sta = 0
      · refine ⟨4, { w with log := w.log ++ scanBringUpLog.take 4 }, by decide, ?_, rfl, rfl⟩
        simp [h1, h2, h3, scanBringUpLog]
      · by_cases h4 : e.ret StackCall.esp_wifi_init = ESP_OK
        · by_cases h5 : e.ret (StackCall.esp_wifi_set_mode wifi_mode_t.WIFI_MODE_STA) = ESP_OK
          · by_cases h6 : e.ret StackCall.esp_wifi_start = ESP_OK
            · exact absurd ⟨h1, h2, h3, h4, h5, h6⟩ h
            · refine ⟨9, { w with log := w.log ++ scanBringUpLog.take 9 }, by decide, ?_, rfl, rfl⟩
              simp [h1, h2, h3, h4, h5, h6, scanBringUpLog]
          · refine ⟨7, { w with log := w.log ++ scanBringUpLog.take 7 }, by decide, ?_, rfl, rfl⟩
            simp [h1, h2, h3, h4, h5, scanBringUpLog]
        · refine ⟨5, { w with log := w.log ++ scanBringUpLog.take 5 }, by decide, ?_, rfl, rfl⟩
          simp [h1, h2, h3, h4, scanBringUpLog]
    · refine ⟨3, { w with log := w.log ++ scanBringUpLog.take 3 }, by decide, ?_, rfl, rfl⟩
      simp [h1, h2, scanBringUpLog]
  · refine ⟨2, { w with log := w.log ++ scanBringUpLog.take 2 }, by decide, ?_, rfl, rfl⟩
    simp [h1, scanBringUpLog]

/-- The scan proper, from the state `p` in which it begins: up to three scan calls, the
status untouched. -/
theorem scan_proper (b : Option (Mem wifi_ap_record_t)) (e : Stack) (w p : World)
    (hp : Prog.when (w.WiFi_Status = JRC_WIFI_NOT_STARTED) scanBringUp e w = Exec.done () p) :
    ∃ k, 2 ≤ k ∧ (JRC_WiFi_Scan b e w).state.log = p.log ++ scanLog.take k ∧
      (JRC_WiFi_Scan b e w).state.WiFi_Status = p.WiFi_Status := by
  by_cases h1 : e.ret (StackCall.esp_wifi_scan_get_ap_records DEFAULT_SCAN_LIST_SIZE) = ESP_OK
  · by_cases h2 : e.ret StackCall.esp_wifi_scan_get_ap_num = ESP_OK
    · refine ⟨3, by decide, ?_⟩
      cases b <;>
      simp [JRC_WiFi_Scan, Prog.bind_eq, Prog.pure_eq, getS, getE, hp, call, ESP_ERROR_CHECK,
        h1, h2, Exec.state, scanLog]
    · refine ⟨3, by decide, ?_⟩
      cases b <;>
      simp [JRC_WiFi_Scan, Prog.bind_eq, Prog.pure_eq, getS, getE, hp, call, ESP_ERROR_CHECK,
        h1, h2, Exec.state, scanLog]
  · refine ⟨2, by decide, ?_⟩
    cases b <;>
    simp [JRC_WiFi_Scan, Prog.bind_eq, Prog.pure_eq, getS, getE, hp, call, ESP_ERROR_CHECK,
      h1, Exec.state, scanLog]

/-- The three ways `JRC_WiFi_Scan` can go, by the status on entry and the checks of its
bring-up. -/
theorem scan_bring_up_cases (b : Option (Mem wifi_ap_record_t)) (e : Stack) (w : World) :
    (w.WiFi_Status = JRC_WIFI_NOT_STARTED → scanBringUpOk e →
      scanBringUp e w = Exec.done () (scanStart w) ∧
      (scanStart w).WiFi_Status = JRC_WIFI_STARTED ∧
      (scanStart w).log = w.log ++ scanBringUpLog ∧
      ∃ k, 2 ≤ k ∧
        (JRC_WiFi_Scan b e w).state.log = w.log ++ scanBringUpLog ++ scanLog.take k ∧
        (JRC_WiFi_Scan b e w).state.WiFi_Status = JRC_WIFI_STARTED) ∧
    (w.WiFi_Status = JRC_WIFI_NOT_STARTED → ¬ scanBringUpOk e →
      ∃ k w', 2 ≤ k ∧ JRC_WiFi_Scan b e w = Exec.abort w' ∧
        w'.log = w.log ++ scanBringUpLog.take k ∧
        w'.WiFi_Status = JRC_WIFI_NOT_STARTED) ∧
    (w.WiFi_Status ≠ JRC_WIFI_NOT_STARTED →
      ∃ k, 2 ≤ k ∧ (JRC_WiFi_Scan b e w).state.log = w.log ++ scanLog.take k ∧
        (JRC_WiFi_Scan b e w).state.WiFi_Status = w.WiFi_Status) ∧
    (∀ c ∈ scanBringUpLog, isBringUpCall c = true) ∧
    (∀ c ∈ scanLog, isBringUpCall c = false) := by
  refine ⟨?_, ?_, ?_, by simp [scanBringUpLog, isBringUpCall],
    by simp [scanLog, isBringUpCall]⟩
  · intro hs hb
    have hstart : scanStart w =
        { WiFi_Status := JRC_WIFI_STARTED, esp_netif_ptr := w.esp_netif_ptr,
          log := w.log ++ scanBringUpLog } := by simp [scanStart, hs]
    have hp : Prog.when (w.WiFi_Status = JRC_WIFI_NOT_STARTED) scanBringUp e w =
        Exec.done () (scanStart w) := by
      rw [scan_when_eq, if_pos hs, scanBringUp_ok e w hb, hstart]
    obtain ⟨k, hk, hlog, hst⟩ := scan_proper b e w _ hp
    refine ⟨by rw [scanBringUp_ok e w hb, hstart], by rw [hstart], by rw [hstart],
      k, hk, ?_, ?_⟩
    · rw [hlog, hstart]
    · rw [hst, hstart]
  · intro hs hb
    obtain ⟨k, w', hk, hab, hlog, hst⟩ := scanBringUp_abort_log e w hb
    refine ⟨k, w', hk, ?_, hlog, by rw [hst, hs]⟩
    cases b <;> simp [JRC_WiFi_Scan, Prog.bind_eq, getS, scan_when_eq, hs, hab]
  · intro hs
    have hp : Prog.when (w.WiFi_Status = JRC_WIFI_NOT_STARTED) scanBringUp e w =
        Exec.done () w := by
      rw [scan_when_eq, if_neg hs]
    exact scan_proper b e w w hp

/-- C12: `JRC_WiFi_Scan` entered with status not-started runs the one-off bring-up first
(when its checks pass the status is started as the scan proper begins and stays so;
when one fails the process aborts inside the bring-up before any scan call); entered
with any other status it issues scan calls only, none of the bring-up, and leaves the
status as it was. -/
theorem C12_scan_bring_up (b : Option (Mem wifi_ap_record_t)) (e : Stack) (w : World) :
    (w.WiFi_Status = JRC_WIFI_NOT_STARTED → scanBringUpOk e →
      scanBringUp e w = Exec.done () (scanStart w) ∧
      (scanStart w).WiFi_Status = JRC_WIFI_STARTED ∧
      (scanStart w).log = w.log ++ scanBringUpLog ∧
      ∃ k, 2 ≤ k ∧
        (JRC_WiFi_Scan b e w).state.log = w.log ++ scanBringUpLog ++ scanLog.take k ∧
        (JRC_WiFi_Scan b e w).state.WiFi_Status = JRC_WIFI_STARTED) ∧
    (w.WiFi_Status = JRC_WIFI_NOT_STARTED → ¬ scanBringUpOk e →
      ∃ k w', 2 ≤ k ∧ JRC_WiFi_Scan b e w = Exec.abort w' ∧
        w'.log = w.log ++ scanBringUpLog.take k ∧
        w'.WiFi_Status = JRC_WIFI_NOT_STARTED) ∧
    (w.WiFi_Status ≠ JRC_WIFI_NOT_STARTED →
      ∃ k, 2 ≤ k ∧ (JRC_WiFi_Scan b e w).state.log = w.log ++ scanLog.take k ∧
        (JRC_WiFi_Scan b e w).state.WiFi_Status = w.WiFi_Status) ∧
    (∀ c ∈ scanBringUpLog, isBringUpCall c = true) ∧
    (∀ c ∈ scanLog, isBringUpCall c = false) :=
  scan_bring_up_cases b e w

/-- C12 at program start with every call succeeding: the bring-up runs and the status is
started. -/
theorem C12_scan_bring_up_witness :
    scanBringUp Stack.allOk World.initial = Exec.done () (scanStart World.initial) ∧
    (scanStart World.initial).WiFi_Status = JRC_WIFI_STARTED ∧
    (scanStart World.initial).log = World.initial.log ++ scanBringUpLog ∧
    ∃ k, 2 ≤ k ∧
      (JRC_WiFi_Scan none Stack.allOk World.initial).state.log =
        World.initial.log ++ scanBringUpLog ++ scanLog.take k ∧
      (JRC_WiFi_Scan none Stack.allOk World.initial).state.WiFi_Status = JRC_WIFI_STARTED :=
  (C12_scan_bring_up none Stack.allOk World.initial).1 rfl
    ⟨rfl, rfl, by decide, rfl, rfl, rfl⟩

/-! ### Who writes the status -/

/-- The status after the scan: started when it was not-started and the bring-up passed,
otherwise as it was. -/
theorem scan_status_eq (b : Option (Mem wifi_ap_record_t)) (e : Stack) (w : World) :
    (JRC_WiFi_Scan b e w).state.WiFi_Status =
      if w.WiFi_Status = JRC_WIFI_NOT_STARTED ∧ scanBringUpOk e then JRC_WIFI_STARTED
      else w.WiFi_Status := by
  obtain ⟨h1, h2, h3, _, _⟩ := scan_bring_up_cases b e w
  by_cases hs : w.WiFi_Status = JRC_WIFI_NOT_STARTED
  · by_cases hb : scanBringUpOk e
    · obtain ⟨_, _, _, k, _, _, hst⟩ := h1 hs hb
      rw [hst, if_pos ⟨hs, hb⟩]
    · obtain ⟨k, w', _, hab, _, hst⟩ := h2 hs hb
      rw [hab, if_neg (fun h => hb h.2)]
      simp [Exec.state, hst, hs]
  · obtain ⟨k, _, _, hst⟩ := h3 hs
    rw [hst, if_neg (fun h => hs h.1)]

/-- A begin variant always ends with the status not-started. -/
theorem begin_status_not_started (m : BeginMode) (e : Stack) (w : World) :
    (JRC_WiFi_begin m e w).state.WiFi_Status = JRC_WIFI_NOT_STARTED := by
  rw [begin_status]
  by_cases h : w.WiFi_Status = JRC_WIFI_NOT_STARTED <;> simp [afterPrologue, h]

/-- C14 as stated fails: from the got-IP state `JRC_WiFi_Stop` and station begin leave
the status not-started, and from program start `JRC_WiFi_Scan` leaves it started; none
of them is the event callback. -/
theorem C14_stop_begin_scan_write_status :
    World.afterGotIp.WiFi_Status = JRC_WIFI_GOT_IP ∧
    (JRC_WiFi_Stop Stack.allOk World.afterGotIp).state.WiFi_Status = JRC_WIFI_NOT_STARTED ∧
    (JRC_WiFi_Begin Stack.allOk World.afterGotIp).state.WiFi_Status = JRC_WIFI_NOT_STARTED ∧
    World.initial.WiFi_Status = JRC_WIFI_NOT_STARTED ∧
    (JRC_WiFi_Scan none Stack.allOk World.initial).state.WiFi_Status = JRC_WIFI_STARTED :=
  ⟨by decide, by decide, by decide, by decide, by decide⟩

/-- C14 amended: besides the event callback the status is written by `JRC_WiFi_Stop`
(always not-started afterwards), by a begin variant (not-started afterwards, so changed
exactly when it was entered with another status) and by `JRC_WiFi_Scan` (started once
its bring-up from not-started has passed, otherwise unchanged); the five query functions
and `JRC_WiFi_Get_Status` leave it as it was, for every input and starting state. -/
theorem C14_status_writers (e : Stack) (w : World) :
    (JRC_WiFi_Stop e w).state.WiFi_Status = JRC_WIFI_NOT_STARTED ∧
    (∀ m, (JRC_WiFi_begin m e w).state.WiFi_Status = JRC_WIFI_NOT_STARTED) ∧
    (∀ b, (JRC_WiFi_Scan b e w).state.WiFi_Status =
      if w.WiFi_Status = JRC_WIFI_NOT_STARTED ∧ scanBringUpOk e then JRC_WIFI_STARTED
      else w.WiFi_Status) ∧
    (∀ b, (JRC_WiFi_AP_Info b e w).state.WiFi_Status = w.WiFi_Status) ∧
    (∀ b, (JRC_WiFi_STA_MAC_Address b e w).state.WiFi_Status = w.WiFi_Status) ∧
    (∀ b, (JRC_WiFi_STA_IP_Address b e w).state.WiFi_Status = w.WiFi_Status) ∧
    (∀ b, (JRC_WiFi_STA_Subnet_Mask b e w).state.WiFi_Status = w.WiFi_Status) ∧
    (∀ b, (JRC_WiFi_STA_Gateway b e w).state.WiFi_Status = w.WiFi_Status) ∧
    (JRC_WiFi_Get_Status e w).state = w := by
  obtain ⟨q1, q2, q3⟩ := query_status e w
  refine ⟨by rw [JRC_WiFi_Stop_eq]; rfl, fun m => begin_status_not_started m e w,
    fun b => scan_status_eq b e w, q1, q2, fun b => q3 _ b, fun b => q3 _ b,
    fun b => q3 _ b, rfl⟩

/-! ### The values of the status -/

/-- One use of the library leaves the status access-point-started only if it was so
before or the use is the delivery of an event whose id is `WIFI_EVENT_AP_START`. -/
theorem ap_started_origin (ids : EventIds) (op : Op) (e : Stack) (w : World)
    (h : (runOp ids op e w).state.WiFi_Status = JRC_WIFI_AP_STARTED) :
    w.WiFi_Status = JRC_WIFI_AP_STARTED ∨ ∃ b d, op = Op.event b ids.WIFI_EVENT_AP_START d := by
  cases op with
  | begin m =>
    simp only [runOp, discard_state, begin_status_not_started] at h
    exact absurd h (by decide)
  | stop =>
    simp only [runOp, discard_state, JRC_WiFi_Stop_eq] at h
    change JRC_WIFI_NOT_STARTED = JRC_WIFI_AP_STARTED at h
    exact absurd h (by decide)
  | scan b =>
    simp only [runOp, discard_state, scan_status_eq] at h
    split_ifs at h
    · exact absurd h (by decide)
    · exact Or.inl h
  | ap_info b => exact Or.inl (by rw [← h]; simp only [runOp, discard_state, (query_status e w).1])
  | sta_mac b =>
    exact Or.inl (by rw [← h]; simp only [runOp, discard_state, (query_status e w).2.1])
  | sta_ip b =>
    exact Or.inl (by
      rw [← h]
      simp only [runOp, discard_state, JRC_WiFi_STA_IP_Address, (query_status e w).2.2])
  | sta_subnet_mask b =>
    exact Or.inl (by
      rw [← h]
      simp only [runOp, discard_state, JRC_WiFi_STA_Subnet_Mask, (query_status e w).2.2])
  | sta_gateway b =>
    exact Or.inl (by
      rw [← h]
      simp only [runOp, discard_state, JRC_WiFi_STA_Gateway, (query_status e w).2.2])
  | get_status => exact Or.inl h
  | event b i d =>
    by_cases hi : i = ids.WIFI_EVENT_AP_START
    · exact Or.inr ⟨b, d, by rw [hi]⟩
    · left
      revert h
      simp only [runOp, wifi_event_handler_state, transitionTable]
      split_ifs <;>
      simp [JRC_WIFI_AP_STARTED, JRC_WIFI_STARTED, JRC_WIFI_CONNECTED, JRC_WIFI_GOT_IP,
        JRC_WIFI_DISCONNECTED]

/-- C15 as stated fails: after access-point begin and the access-point-start event the
state is reachable and `JRC_WiFi_Get_Status` returns `JRC_WIFI_AP_STARTED`, which is none
of the five values listed in the header comment. -/
theorem C15_ap_started_is_returned :
    Reachable EventIds.espIdf World.apStarted ∧
    JRC_WiFi_Get_Status Stack.allOk World.apStarted =
      Exec.done JRC_WIFI_AP_STARTED World.apStarted ∧
    ¬ listedStatus JRC_WIFI_AP_STARTED :=
  ⟨Reachable.step _ _ _ (Reachable.step _ _ _ Reachable.start), rfl,
    by unfold listedStatus; decide⟩

/-- C15 amended: in every reachable state `JRC_WiFi_Get_Status` returns one of the five
values listed in its header comment or the sixth status macro `JRC_WIFI_AP_STARTED`, and
a use of the library leaves the status at `JRC_WIFI_AP_STARTED` only if it was so before
or the use is the delivery of an event whose id is `WIFI_EVENT_AP_START`. -/
theorem C15_status_listed_or_ap_started (ids : EventIds) (w : World) (h : Reachable ids w) :
    (∀ e, ∃ s, JRC_WiFi_Get_Status e w = Exec.done s w ∧
      (listedStatus s ∨ s = JRC_WIFI_AP_STARTED)) ∧
    ∀ op e, (runOp ids op e w).state.WiFi_Status = JRC_WIFI_AP_STARTED →
      w.WiFi_Status = JRC_WIFI_AP_STARTED ∨
      ∃ b d, op = Op.event b ids.WIFI_EVENT_AP_START d := by
  refine ⟨fun e => ⟨w.WiFi_Status, rfl, ?_⟩, fun op e => ap_started_origin ids op e w⟩
  have hdoc : documentedStatus w.WiFi_Status := by
    induction h with
    | start => exact Or.inl rfl
    | step w e op _ ih =>
      rcases runOp_status ids op e w with h | h
      · rw [h]; exact ih
      · exact h
  rcases hdoc with h | h | h | h | h | h
  · exact Or.inl (Or.inl h)
  · exact Or.inl (Or.inr (Or.inr (Or.inl h)))
  · exact Or.inl (Or.inr (Or.inl h))
  · exact Or.inl (Or.inr (Or.inr (Or.inr (Or.inl h))))
  · exact Or.inl (Or.inr (Or.inr (Or.inr (Or.inr h))))
  · exact Or.inr h

/-- C15 amended, at the state after access-point begin and the access-point-start event. -/
theorem C15_status_listed_or_ap_started_witness :
    (∀ e, ∃ s, JRC_WiFi_Get_Status e World.apStarted = Exec.done s World.apStarted ∧
      (listedStatus s ∨ s = JRC_WIFI_AP_STARTED)) ∧
    ∀ op e, (runOp EventIds.espIdf op e World.apStarted).state.WiFi_Status =
        JRC_WIFI_AP_STARTED →
      World.apStarted.WiFi_Status = JRC_WIFI_AP_STARTED ∨
      ∃ b d, op = Op.event b EventIds.espIdf.WIFI_EVENT_AP_START d :=
  C15_status_listed_or_ap_started EventIds.espIdf World.apStarted
    (Reachable.step _ _ _ (Reachable.step _ _ _ Reachable.start))

/-! ### The event callback -/

/-- Distinct labels, spelled out for the five labels that write the status. -/
theorem EventIds.distinct_ne (ids : EventIds) (hd : ids.distinct) :
    ids.WIFI_EVENT_STA_CONNECTED ≠ ids.WIFI_EVENT_STA_START ∧
    ids.IP_EVENT_STA_GOT_IP ≠ ids.WIFI_EVENT_STA_START ∧
    ids.IP_EVENT_STA_GOT_IP ≠ ids.WIFI_EVENT_STA_CONNECTED ∧
    ids.WIFI_EVENT_STA_DISCONNECTED ≠ ids.WIFI_EVENT_STA_START ∧
    ids.WIFI_EVENT_STA_DISCONNECTED ≠ ids.WIFI_EVENT_STA_CONNECTED ∧
    ids.WIFI_EVENT_STA_DISCONNECTED ≠ ids.IP_EVENT_STA_GOT_IP ∧
    ids.WIFI_EVENT_AP_START ≠ ids.WIFI_EVENT_STA_START ∧
    ids.WIFI_EVENT_AP_START ≠ ids.WIFI_EVENT_STA_CONNECTED ∧
    ids.WIFI_EVENT_AP_START ≠ ids.IP_EVENT_STA_GOT_IP ∧
    ids.WIFI_EVENT_AP_START ≠ ids.WIFI_EVENT_STA_DISCONNECTED := by
  simp only [EventIds.distinct, List.nodup_cons, List.mem_cons, List.mem_singleton,
    List.not_mem_nil, not_or, or_false] at hd
  obtain ⟨⟨a1, a2, a3, a4, _, _⟩, ⟨b1, b2, b3, _, _⟩, ⟨c1, c2, _, _⟩, ⟨d1, _, _⟩, _⟩ := hd
  exact ⟨Ne.symm a1, Ne.symm a2, Ne.symm b1, Ne.symm a3, Ne.symm b2, Ne.symm c1, Ne.symm a4,
    Ne.symm b3, Ne.symm c2, Ne.symm d1⟩

/-- Rows of the transition table for distinct labels. -/
theorem transitionTable_rows (ids : EventIds) (hd : ids.distinct) (s : JRC_WiFi_Status_t) :
    transitionTable ids ids.WIFI_EVENT_STA_START s = JRC_WIFI_STARTED ∧
    transitionTable ids ids.WIFI_EVENT_STA_CONNECTED s = JRC_WIFI_CONNECTED ∧
    transitionTable ids ids.IP_EVENT_STA_GOT_IP s = JRC_WIFI_GOT_IP ∧
    transitionTable ids ids.WIFI_EVENT_STA_DISCONNECTED s = JRC_WIFI_DISCONNECTED ∧
    transitionTable ids ids.WIFI_EVENT_AP_START s = JRC_WIFI_AP_STARTED := by
  obtain ⟨h1, h2, h3, h4, h5, h6, h7, h8, h9, h10⟩ := ids.distinct_ne hd
  simp [transitionTable, h1, h2, h3, h4, h5, h6, h7, h8, h9, h10]

/-- The vendor numbering has pairwise distinct labels. -/
theorem EventIds.espIdf_distinct : EventIds.espIdf.distinct := by
  unfold EventIds.distinct EventIds.espIdf
  decide

/-- Where the callback agrees with the table of the spec on events told apart by base and
id: on every event it is registered for, except an event of the WiFi base that carries
the id of `IP_EVENT_STA_GOT_IP`. -/
theorem handler_matches_specTransition (ids : EventIds) (hd : ids.distinct)
    (b : esp_event_base_t) (i : Int) (d : Nat) (e : Stack) (w : World)
    (hr : registered ids b i)
    (hne : ¬ (b = esp_event_base_t.WIFI_EVENT ∧ i = ids.IP_EVENT_STA_GOT_IP)) :
    (wifi_event_handler ids b i d e w).state.WiFi_Status =
      specTransition ids b i w.WiFi_Status := by
  rw [wifi_event_handler_state]
  cases b with
  | WIFI_EVENT =>
    have h3 : i ≠ ids.IP_EVENT_STA_GOT_IP := fun h => hne ⟨rfl, h⟩
    simp [specTransition, transitionTable, h3]
  | IP_EVENT =>
    rcases hr with hr | ⟨_, hr⟩
    · exact absurd hr (by decide)
    · subst hr
      simp [specTransition, (transitionTable_rows ids hd w.WiFi_Status).2.2.1]

/-- C17 on the code: in the started state the event of the WiFi base with id 0 (the id of
`WIFI_EVENT_WIFI_READY` in the vendor numbering, equal to that of `IP_EVENT_STA_GOT_IP`)
is an event the callback is registered for and none of the five events of the table,
which keeps the status for it; the callback sets the status to got-IP. On every other
registered event, for distinct labels, whatever the status and the payload, the callback
leaves the status the table gives; it returns unless it reads a null payload (client
join or leave), where the process stops with the status untouched. -/
theorem C17_wifi_base_event_leaves_table :
    World.started.WiFi_Status = JRC_WIFI_STARTED ∧
    registered EventIds.espIdf esp_event_base_t.WIFI_EVENT 0 ∧
    specTransition EventIds.espIdf esp_event_base_t.WIFI_EVENT 0 World.started.WiFi_Status =
      JRC_WIFI_STARTED ∧
    wifi_event_handler EventIds.espIdf esp_event_base_t.WIFI_EVENT 0 0 Stack.allOk
      World.started = Exec.done () { World.started with WiFi_Status := JRC_WIFI_GOT_IP } ∧
    (∀ (ids : EventIds) (b : esp_event_base_t) (i : Int) (d : Nat) (e : Stack) (w : World),
      ids.distinct → registered ids b i →
      ¬ (b = esp_event_base_t.WIFI_EVENT ∧ i = ids.IP_EVENT_STA_GOT_IP) →
      (wifi_event_handler ids b i d e w).state.WiFi_Status =
        specTransition ids b i w.WiFi_Status) ∧
    (∀ (ids : EventIds) (b : esp_event_base_t) (i : Int) (d : Nat) (e : Stack) (w : World),
      (readsPayload ids i → d ≠ 0) →
      ∃ w', wifi_event_handler ids b i d e w = Exec.done () w') ∧
    (∀ (ids : EventIds) (b : esp_event_base_t) (i : Int) (e : Stack) (w : World),
      readsPayload ids i → wifi_event_handler ids b i 0 e w = Exec.abort w) :=
  ⟨by decide, Or.inl rfl, by decide, rfl,
    fun ids b i d e w hd hr hne => handler_matches_specTransition ids hd b i d e w hr hne,
    fun ids b i d e w h => wifi_event_handler_returns ids b i d e w h,
    fun ids b i e w h => wifi_event_handler_faults ids b i e w h⟩

/-- Deliveries of the station-disconnected event: one `esp_wifi_connect` each, and the
status disconnected from the first one on. -/
theorem deliver_disconnects (ids : EventIds) (hd : ids.distinct) (ds : List Delivery)
    (hds : ∀ d ∈ ds, d.event_id = ids.WIFI_EVENT_STA_DISCONNECTED) : ∀ w : World,
    (deliver ids ds w).log = w.log ++ List.replicate ds.length StackCall.esp_wifi_connect ∧
    (deliver ids ds w).WiFi_Status =
      if ds.length = 0 then w.WiFi_Status else JRC_WIFI_DISCONNECTED := by
  obtain ⟨_, _, _, h4, h5, h6, _⟩ := ids.distinct_ne hd
  induction ds with
  | nil => intro w; simp [deliver]
  | cons d ds ih =>
    intro w
    have hid : d.event_id = ids.WIFI_EVENT_STA_DISCONNECTED := hds d (List.mem_cons_self _ _)
    have hstep : (wifi_event_handler ids d.event_base d.event_id d.event_data d.env w).state =
        { WiFi_Status := JRC_WIFI_DISCONNECTED, esp_netif_ptr := w.esp_netif_ptr,
          log := w.log ++ [StackCall.esp_wifi_connect] } := by
      rw [wifi_event_handler_state, hid]
      simp [transitionTable, handlerCalls, h4, h5, h6]
    obtain ⟨hl, hs⟩ := ih (fun x hx => hds x (List.mem_cons_of_mem _ hx))
      { WiFi_Status := JRC_WIFI_DISCONNECTED, esp_netif_ptr := w.esp_netif_ptr,
        log := w.log ++ [StackCall.esp_wifi_connect] }
    rw [deliver, hstep]
    constructor
    · rw [hl]
      simp [List.replicate_succ]
    · rw [hs]
      by_cases hnil : ds.length = 0 <;> simp [hnil]

/-- C18: with the `case` labels pairwise distinct, from every state, `n` deliveries of the
station-disconnected event append exactly `n` `esp_wifi_connect` requests to the log, one
per delivery, and leave the status disconnected when `n ≥ 1` (nothing changes when
`n = 0`); a delivery of the station-start event appends exactly one such request. -/
theorem C18_reconnect_per_disconnect (ids : EventIds) (hd : ids.distinct)
    (ds : List Delivery)
    (hds : ∀ d ∈ ds, d.event_id = ids.WIFI_EVENT_STA_DISCONNECTED) (w : World) :
    (deliver ids ds w).log = w.log ++ List.replicate ds.length StackCall.esp_wifi_connect ∧
    connectRequests (deliver ids ds w).log = connectRequests w.log + ds.length ∧
    (ds ≠ [] → (deliver ids ds w).WiFi_Status = JRC_WIFI_DISCONNECTED) ∧
    (ds = [] → deliver ids ds w = w) ∧
    ∀ b d e, (wifi_event_handler ids b ids.WIFI_EVENT_STA_START d e w).state.log =
      w.log ++ [StackCall.esp_wifi_connect] := by
  obtain ⟨hl, hs⟩ := deliver_disconnects ids hd ds hds w
  refine ⟨hl, ?_, ?_, ?_, ?_⟩
  · rw [hl]
    simp [connectRequests, List.count_append, List.count_replicate_self]
  · intro h
    rw [hs, if_neg (by simpa using h)]
  · rintro rfl
    rfl
  · intro b d e
    rw [wifi_event_handler_state]
    simp [handlerCalls]

/-- C18 at the got-IP state with three station-disconnected events. -/
theorem C18_reconnect_per_disconnect_witness :
    (deliver EventIds.espIdf threeDisconnects World.afterGotIp).log =
      World.afterGotIp.log ++ List.replicate threeDisconnects.length StackCall.esp_wifi_connect ∧
    connectRequests (deliver EventIds.espIdf threeDisconnects World.afterGotIp).log =
      connectRequests World.afterGotIp.log + threeDisconnects.length ∧
    (deliver EventIds.espIdf threeDisconnects World.afterGotIp).WiFi_Status =
      JRC_WIFI_DISCONNECTED :=
  have h := C18_reconnect_per_disconnect EventIds.espIdf EventIds.espIdf_distinct
    threeDisconnects (by decide) World.afterGotIp
  ⟨h.1, h.2.1, h.2.2.1 (by simp [threeDisconnects])⟩

/-- C19 on the code: the callback does not consult the event base, so an event of the
WiFi base whose id equals `IP_EVENT_STA_GOT_IP` sets the status to got-IP. In the vendor
numbering that id is 0, the id of `WIFI_EVENT_WIFI_READY`: delivered in the started state
it leaves the status got-IP. -/
theorem C19_wifi_base_event_sets_got_ip :
    EventIds.espIdf.IP_EVENT_STA_GOT_IP = 0 ∧
    World.started.WiFi_Status = JRC_WIFI_STARTED ∧
    (wifi_event_handler EventIds.espIdf esp_event_base_t.WIFI_EVENT 0 0 Stack.allOk
      World.started).state.WiFi_Status = JRC_WIFI_GOT_IP ∧
    (∀ (ids : EventIds) (b1 b2 : esp_event_base_t) (i : Int) (d : Nat) (e : Stack) (w : World),
      wifi_event_handler ids b1 i d e w = wifi_event_handler ids b2 i d e w) ∧
    (∀ (ids : EventIds) (d : Nat) (e : Stack) (w : World), ids.distinct →
      (wifi_event_handler ids esp_event_base_t.WIFI_EVENT ids.IP_EVENT_STA_GOT_IP d e
        w).state.WiFi_Status = JRC_WIFI_GOT_IP) := by
  refine ⟨rfl, by decide, by decide, fun _ _ _ _ _ _ _ => rfl, ?_⟩
  intro ids d e w hd
  rw [wifi_event_handler_state]
  exact (transitionTable_rows ids hd w.WiFi_Status).2.2.1

end ModbusSlave
